import Mathlib

/-!
Verification of the receiver of the unixcw library (src/libcw/libcw_rec.c).

The receiver ingests mark-begin/mark-end timestamps, classifies marks as
dots or dashes, accumulates a representation, detects inter-character and
inter-word gaps, and supports adaptive speed tracking with moving averages.

All durations are natural numbers of microseconds.  C `int` values that the
receiver keeps are non-negative on every path the theorems below touch, so
they are embedded as `Nat`; the one signed quantity (a statistics delta) is
an `Int`, and the one place where C performs a truncated division on a
possibly-negative value (`cw_rec_update_averages_internal`) uses `Int.tdiv`,
which matches C's rounding towards zero.
-/

namespace Unixcw

/-- 32-bit INT_MAX, used by the receiver as a cap on timestamp differences
and as the upper bound of the adaptive dash range. -/
def INT_MAX : Nat := 2147483647

/-- Modelled from the spec: `CW_DOT_CALIBRATION = 1_200_000` µs per WPM unit
(defined in libcw.h, which is not under src/). -/
def CW_DOT_CALIBRATION : Nat := 1200000

/-- Modelled from the spec: minimal speed, 4 WPM (libcw.h, not under src/). -/
def CW_SPEED_MIN : Nat := 4

/-- Modelled from the spec: maximal speed, 60 WPM (libcw.h, not under src/). -/
def CW_SPEED_MAX : Nat := 60

/-- Modelled from the spec: initial speed, 12 WPM (libcw.h, not under src/). -/
def CW_SPEED_INITIAL : Nat := 12

/-- Modelled from the spec: minimal tolerance, 0 % (libcw.h, not under src/). -/
def CW_TOLERANCE_MIN : Nat := 0

/-- Modelled from the spec: maximal tolerance, 90 % (libcw.h, not under src/). -/
def CW_TOLERANCE_MAX : Nat := 90

/-- Modelled from the spec: initial tolerance, 50 % (libcw.h, not under src/). -/
def CW_TOLERANCE_INITIAL : Nat := 50

/-- Modelled from the spec: minimal gap, 0 units (libcw.h, not under src/). -/
def CW_GAP_MIN : Nat := 0

/-- Modelled from the spec: maximal gap, 60 units (libcw.h, not under src/). -/
def CW_GAP_MAX : Nat := 60

/-- Modelled from the spec: initial gap, 0 units (libcw.h, not under src/). -/
def CW_GAP_INITIAL : Nat := 0

/-- Modelled from the spec: capacity of the receiver's representation buffer,
256 (libcw_rec.h, not under src/; the spec's `REC_REPR_CAP = 256`). -/
def CW_REC_REPRESENTATION_CAPACITY : Nat := 256

/-- Capacity of the statistics ring (libcw_rec.c line 143). -/
def CW_REC_STATISTICS_CAPACITY : Nat := 256

/-- Window of the moving average (libcw_rec.c line 149). -/
def CW_REC_AVERAGING_ARRAY_LENGTH : Nat := 4

/-- A Morse mark: dot or dash (`CW_DOT_REPRESENTATION` / `CW_DASH_REPRESENTATION`). -/
inductive Mark
| dot
| dash
deriving DecidableEq, Repr

/-- Receiver states (enum `RS_*`, libcw_rec.c lines 106-114). -/
inductive RecState
| RS_IDLE
| RS_MARK
| RS_SPACE
| RS_EOC_GAP
| RS_EOW_GAP
| RS_EOC_GAP_ERR
| RS_EOW_GAP_ERR
deriving DecidableEq, Repr

/-- The errno values the receiver sets. -/
inductive Errno
| EPERM
| EINVAL
| ERANGE
| ENOENT
| ENOMEM
| EAGAIN
deriving DecidableEq, Repr

/-- Types of timing statistics (`stat_type_t`, libcw_rec.c lines 157-163). -/
inductive stat_type_t
| CW_REC_STAT_NONE
| CW_REC_STAT_DOT
| CW_REC_STAT_DASH
| CW_REC_STAT_IMARK_SPACE
| CW_REC_STAT_ICHAR_SPACE
deriving DecidableEq, Repr

/-- One entry of the statistics ring (`cw_rec_statistics_t`). -/
structure cw_rec_statistics_t where
  type : stat_type_t
  delta : Int
deriving DecidableEq, Repr

/-- Moving-averages circular buffer (`cw_rec_averaging_t`, libcw_rec.c
lines 177-182).  The C fixed array of 4 ints is a list whose length-4
invariant is carried by the theorems. -/
structure cw_rec_averaging_t where
  buffer : List Nat
  cursor : Nat
  sum : Nat
  average : Nat
deriving DecidableEq, Repr

/-- `cw_rec_reset_average_internal` (libcw_rec.c lines 654-664): fill the
buffer with `initial`, set `sum` accordingly, rewind the cursor.  Note that
the `average` field is NOT recomputed. -/
def cw_rec_reset_average_internal (avg : cw_rec_averaging_t) (initial : Nat) :
    cw_rec_averaging_t :=
  { avg with
    buffer := List.replicate CW_REC_AVERAGING_ARRAY_LENGTH initial
    sum := initial * CW_REC_AVERAGING_ARRAY_LENGTH
    cursor := 0 }

/-- `cw_rec_update_average_internal` (libcw_rec.c lines 683-695): the oldest
mark length goes out, the new one goes in, the average is recomputed from
the running sum, and the cursor advances modulo the window length. -/
def cw_rec_update_average_internal (avg : cw_rec_averaging_t) (mark_len : Nat) :
    cw_rec_averaging_t :=
  let sum := avg.sum - avg.buffer.getD avg.cursor 0 + mark_len
  { buffer := avg.buffer.set avg.cursor mark_len
    cursor := (avg.cursor + 1) % CW_REC_AVERAGING_ARRAY_LENGTH
    sum := sum
    average := sum / CW_REC_AVERAGING_ARRAY_LENGTH }

/-- The receiver (`struct cw_rec_struct`, libcw_rec.c lines 188-286).
Timestamps are microsecond counts; the representation buffer and its
write index are a list of marks (the index is the length of the list). -/
structure cw_rec_t where
  state : RecState
  speed : Nat
  tolerance : Nat
  gap : Nat
  is_adaptive_receive_mode : Bool
  noise_spike_threshold : Nat
  adaptive_speed_threshold : Nat
  mark_start : Nat
  mark_end : Nat
  representation : List Mark
  dot_len_ideal : Nat
  dot_len_min : Nat
  dot_len_max : Nat
  dash_len_ideal : Nat
  dash_len_min : Nat
  dash_len_max : Nat
  eom_len_ideal : Nat
  eom_len_min : Nat
  eom_len_max : Nat
  eoc_len_ideal : Nat
  eoc_len_min : Nat
  eoc_len_max : Nat
  additional_delay : Nat
  adjustment_delay : Nat
  parameters_in_sync : Bool
  statistics : List cw_rec_statistics_t
  statistics_ind : Nat
  dot_averaging : cw_rec_averaging_t
  dash_averaging : cw_rec_averaging_t
deriving DecidableEq, Repr

/-- Write index into the representation buffer (`representation_ind`). -/
def cw_rec_t.representation_ind (r : cw_rec_t) : Nat :=
  r.representation.length

/-- Modelled from the spec: timestamp difference in microseconds, capped at
INT_MAX (`cw_timestamp_compare_internal` lives in libcw_utils.c, which is
not under src/; spec section 2.B: "Monotonic timestamp capture, difference,
validation"). -/
def cw_timestamp_compare_internal (earlier later : Nat) : Nat :=
  min (later - earlier) INT_MAX

/-- `cw_rec_sync_parameters_internal` (libcw_rec.c lines 2017-2127).
Recompute the low-level timing parameters from speed, gap, tolerance and
the adaptive flag; a no-op when the parameters are already in sync. -/
def cw_rec_sync_parameters_internal (r : cw_rec_t) : cw_rec_t :=
  if r.parameters_in_sync then r
  else
    let unit_len := CW_DOT_CALIBRATION / r.speed
    let r1 :=
      if r.is_adaptive_receive_mode then
        { r with speed := CW_DOT_CALIBRATION / (r.adaptive_speed_threshold / 2) }
      else
        { r with adaptive_speed_threshold := 2 * unit_len }
    let r2 := { r1 with
      dot_len_ideal := unit_len
      dash_len_ideal := 3 * unit_len
      eom_len_ideal := unit_len
      eoc_len_ideal := 3 * unit_len
      additional_delay := r1.gap * unit_len
      adjustment_delay := (7 * (r1.gap * unit_len)) / 3 }
    if r2.is_adaptive_receive_mode then
      let r3 := { r2 with
        dot_len_min := 0
        dot_len_max := 2 * r2.dot_len_ideal }
      let r4 := { r3 with
        dash_len_min := r3.dot_len_max
        dash_len_max := INT_MAX }
      { r4 with
        eom_len_min := r4.dot_len_min
        eom_len_max := r4.dot_len_max
        eoc_len_min := r4.dot_len_max
        eoc_len_max := 5 * r4.dot_len_ideal
        parameters_in_sync := true }
    else
      let tolerance := (r2.dot_len_ideal * r2.tolerance) / 100
      let r3 := { r2 with
        dot_len_min := r2.dot_len_ideal - tolerance
        dot_len_max := r2.dot_len_ideal + tolerance
        dash_len_min := r2.dash_len_ideal - tolerance
        dash_len_max := r2.dash_len_ideal + tolerance }
      { r3 with
        eom_len_min := r3.dot_len_min
        eom_len_max := r3.dot_len_max
        eoc_len_min := r3.dash_len_min
        eoc_len_max := r3.dash_len_max + r3.additional_delay + r3.adjustment_delay
        parameters_in_sync := true }

/-- `cw_rec_update_stats_internal` (libcw_rec.c lines 721-740): synchronize
parameters, then push the delta against the ideal length for `type` into
the circular statistics buffer. -/
def cw_rec_update_stats_internal (r : cw_rec_t) (type : stat_type_t) (len : Nat) :
    cw_rec_t :=
  let r := cw_rec_sync_parameters_internal r
  let ideal : Nat :=
    match type with
    | stat_type_t.CW_REC_STAT_DOT => r.dot_len_ideal
    | stat_type_t.CW_REC_STAT_DASH => r.dash_len_ideal
    | stat_type_t.CW_REC_STAT_IMARK_SPACE => r.eom_len_ideal
    | stat_type_t.CW_REC_STAT_ICHAR_SPACE => r.eoc_len_ideal
    | stat_type_t.CW_REC_STAT_NONE => len
  let delta : Int := (len : Int) - (ideal : Int)
  { r with
    statistics := r.statistics.set r.statistics_ind ⟨type, delta⟩
    statistics_ind := (r.statistics_ind + 1) % CW_REC_STATISTICS_CAPACITY }

/-- `cw_rec_identify_mark_internal` (libcw_rec.c lines 1272-1351): classify
a mark length against the dot and dash ranges; on failure set an error
state chosen by comparing the length against `eoc_len_max` and report
ENOENT. -/
def cw_rec_identify_mark_internal (r : cw_rec_t) (mark_len : Nat) :
    Except Errno Mark × cw_rec_t :=
  let r := cw_rec_sync_parameters_internal r
  if r.dot_len_min ≤ mark_len ∧ mark_len ≤ r.dot_len_max then
    (Except.ok Mark.dot, r)
  else if r.dash_len_min ≤ mark_len ∧ mark_len ≤ r.dash_len_max then
    (Except.ok Mark.dash, r)
  else
    (Except.error Errno.ENOENT,
      { r with state := if mark_len > r.eoc_len_max
                        then RecState.RS_EOW_GAP_ERR
                        else RecState.RS_EOC_GAP_ERR })

/-- `cw_rec_update_averages_internal` (libcw_rec.c lines 1368-1425): in
adaptive mode, fold the new mark length into the moving average of its
kind, recompute the adaptive speed threshold, re-synchronize, and on a
speed outside [CW_SPEED_MIN, CW_SPEED_MAX] clamp the speed and force two
more synchronization passes. -/
def cw_rec_update_averages_internal (r : cw_rec_t) (mark_len : Nat) (mark : Mark) :
    cw_rec_t :=
  if r.is_adaptive_receive_mode = false then r
  else
    let r :=
      if mark = Mark.dot then
        { r with dot_averaging := cw_rec_update_average_internal r.dot_averaging mark_len }
      else
        { r with dash_averaging := cw_rec_update_average_internal r.dash_averaging mark_len }
    let avg_dot_len : Int := r.dot_averaging.average
    let avg_dash_len : Int := r.dash_averaging.average
    let r := { r with
      adaptive_speed_threshold := (Int.tdiv (avg_dash_len - avg_dot_len) 2 + avg_dot_len).toNat
      parameters_in_sync := false }
    let r := cw_rec_sync_parameters_internal r
    if r.speed < CW_SPEED_MIN ∨ r.speed > CW_SPEED_MAX then
      let r := { r with
        speed := if r.speed < CW_SPEED_MIN then CW_SPEED_MIN else CW_SPEED_MAX }
      let r := cw_rec_sync_parameters_internal
        { r with is_adaptive_receive_mode := false, parameters_in_sync := false }
      cw_rec_sync_parameters_internal
        { r with is_adaptive_receive_mode := true, parameters_in_sync := false }
    else r

/-- `cw_rec_mark_begin_internal` (libcw_rec.c lines 1039-1079): record the
begin-of-mark timestamp; from the Space state also record inter-mark-space
statistics; go to the Mark state. -/
def cw_rec_mark_begin_internal (r : cw_rec_t) (timestamp : Nat) :
    Except Errno Unit × cw_rec_t :=
  if r.state ≠ RecState.RS_IDLE ∧ r.state ≠ RecState.RS_SPACE then
    (Except.error Errno.ERANGE, r)
  else
    let r := { r with mark_start := timestamp }
    let r :=
      if r.state = RecState.RS_SPACE then
        let space_len := cw_timestamp_compare_internal r.mark_end r.mark_start
        cw_rec_update_stats_internal r stat_type_t.CW_REC_STAT_IMARK_SPACE space_len
      else r
    (Except.ok (), { r with state := RecState.RS_MARK })

/-- `cw_rec_mark_end_internal` (libcw_rec.c lines 1122-1236): record the
end-of-mark timestamp; drop the event pair as noise when it is not longer
than the noise spike threshold; otherwise classify the mark, update
averages (adaptive mode) and statistics, append to the representation
buffer, and fail with ENOMEM when the buffer fills up. -/
def cw_rec_mark_end_internal (r : cw_rec_t) (timestamp : Nat) :
    Except Errno Unit × cw_rec_t :=
  if r.state ≠ RecState.RS_MARK then
    (Except.error Errno.ERANGE, r)
  else
    let saved_end_timestamp := r.mark_end
    let r := { r with mark_end := timestamp }
    let mark_len := cw_timestamp_compare_internal r.mark_start r.mark_end
    if 0 < r.noise_spike_threshold ∧ mark_len ≤ r.noise_spike_threshold then
      (Except.error Errno.EAGAIN,
        { r with
          state := if r.representation.length = 0
                   then RecState.RS_IDLE else RecState.RS_SPACE
          mark_end := saved_end_timestamp })
    else
      match cw_rec_identify_mark_internal r mark_len with
      | (Except.error e, r) => (Except.error e, r)
      | (Except.ok mark, r) =>
        let r :=
          if r.is_adaptive_receive_mode then
            cw_rec_update_averages_internal r mark_len mark
          else r
        let r :=
          if mark = Mark.dot then
            cw_rec_update_stats_internal r stat_type_t.CW_REC_STAT_DOT mark_len
          else
            cw_rec_update_stats_internal r stat_type_t.CW_REC_STAT_DASH mark_len
        let r := { r with representation := r.representation ++ [mark] }
        if r.representation.length = CW_REC_REPRESENTATION_CAPACITY - 1 then
          (Except.error Errno.ENOMEM, { r with state := RecState.RS_EOC_GAP_ERR })
        else
          (Except.ok (), { r with state := RecState.RS_SPACE })

/-- `cw_rec_add_mark_internal` (libcw_rec.c lines 1452-1502): append a
pre-classified mark, record the end-of-mark timestamp, and fail with
ENOMEM when the buffer fills up. -/
def cw_rec_add_mark_internal (r : cw_rec_t) (timestamp : Nat) (mark : Mark) :
    Except Errno Unit × cw_rec_t :=
  if r.state ≠ RecState.RS_IDLE ∧ r.state ≠ RecState.RS_SPACE then
    (Except.error Errno.ERANGE, r)
  else
    let r := { r with mark_end := timestamp }
    let r := { r with representation := r.representation ++ [mark] }
    if r.representation.length = CW_REC_REPRESENTATION_CAPACITY - 1 then
      (Except.error Errno.ENOMEM, { r with state := RecState.RS_EOC_GAP_ERR })
    else
      (Except.ok (), { r with state := RecState.RS_SPACE })

/-- What a successful poll hands back: the representation, the end-of-word
flag and the error flag. -/
structure PolledRepr where
  representation : List Mark
  is_end_of_word : Bool
  is_error : Bool
deriving DecidableEq, Repr

/-- `cw_rec_poll_representation_eoc_internal` (libcw_rec.c lines 1738-1777):
from the Space state record end-of-character statistics and move to the
EOC gap state; report the buffered representation with
`is_end_of_word = false` and the error flag from the state. -/
def cw_rec_poll_representation_eoc_internal (r : cw_rec_t) (space_len : Nat) :
    PolledRepr × cw_rec_t :=
  let r :=
    if r.state = RecState.RS_SPACE then
      let r := cw_rec_update_stats_internal r stat_type_t.CW_REC_STAT_ICHAR_SPACE space_len
      { r with state := RecState.RS_EOC_GAP }
    else r
  (⟨r.representation, false, decide (r.state = RecState.RS_EOC_GAP_ERR)⟩, r)

/-- `cw_rec_poll_representation_eow_internal` (libcw_rec.c lines 1783-1813):
move to the EOW gap state (preserving an error); report the buffered
representation with `is_end_of_word = true` and the error flag from the
state. -/
def cw_rec_poll_representation_eow_internal (r : cw_rec_t) :
    PolledRepr × cw_rec_t :=
  let r :=
    if r.state = RecState.RS_EOC_GAP ∨ r.state = RecState.RS_SPACE then
      { r with state := RecState.RS_EOW_GAP }
    else if r.state = RecState.RS_EOC_GAP_ERR then
      { r with state := RecState.RS_EOW_GAP_ERR }
    else r
  (⟨r.representation, true, decide (r.state = RecState.RS_EOW_GAP_ERR)⟩, r)

/-- `cw_rec_poll_representation_internal` (libcw_rec.c lines 1628-1732):
poll the receiver; from EOW states re-deliver; from Idle/Mark fail with
ERANGE; otherwise measure the space since the last end of mark and
dispatch on the end-of-character range. -/
def cw_rec_poll_representation_internal (r : cw_rec_t) (timestamp : Nat) :
    Except Errno PolledRepr × cw_rec_t :=
  if r.state = RecState.RS_EOW_GAP ∨ r.state = RecState.RS_EOW_GAP_ERR then
    let p := cw_rec_poll_representation_eow_internal r
    (Except.ok p.fst, p.snd)
  else if r.state = RecState.RS_IDLE ∨ r.state = RecState.RS_MARK then
    (Except.error Errno.ERANGE, r)
  else
    let space_len := cw_timestamp_compare_internal r.mark_end timestamp
    if space_len = INT_MAX then
      (Except.error Errno.EAGAIN, r)
    else
      let r := cw_rec_sync_parameters_internal r
      if r.eoc_len_min ≤ space_len ∧ space_len ≤ r.eoc_len_max then
        let p := cw_rec_poll_representation_eoc_internal r space_len
        (Except.ok p.fst, p.snd)
      else if space_len > r.eoc_len_max then
        let p := cw_rec_poll_representation_eow_internal r
        (Except.ok p.fst, p.snd)
      else
        (Except.error Errno.EAGAIN, r)

/-- `cw_set_receive_speed` (libcw_rec.c lines 408-429): EPERM while in
adaptive mode, EINVAL outside [CW_SPEED_MIN, CW_SPEED_MAX], otherwise set
the speed and (on a change) resynchronize. -/
def cw_set_receive_speed (r : cw_rec_t) (new_value : Int) :
    Except Errno Unit × cw_rec_t :=
  if r.is_adaptive_receive_mode then
    (Except.error Errno.EPERM, r)
  else if new_value < (CW_SPEED_MIN : Int) ∨ new_value > (CW_SPEED_MAX : Int) then
    (Except.error Errno.EINVAL, r)
  else if new_value ≠ (r.speed : Int) then
    (Except.ok (), cw_rec_sync_parameters_internal
      { r with speed := new_value.toNat, parameters_in_sync := false })
  else
    (Except.ok (), r)

/-- `cw_set_tolerance` (libcw_rec.c lines 465-481): EINVAL outside
[CW_TOLERANCE_MIN, CW_TOLERANCE_MAX], otherwise set the tolerance and (on a
change) resynchronize. -/
def cw_set_tolerance (r : cw_rec_t) (new_value : Int) :
    Except Errno Unit × cw_rec_t :=
  if new_value < (CW_TOLERANCE_MIN : Int) ∨ new_value > (CW_TOLERANCE_MAX : Int) then
    (Except.error Errno.EINVAL, r)
  else if new_value ≠ (r.tolerance : Int) then
    (Except.ok (), cw_rec_sync_parameters_internal
      { r with tolerance := new_value.toNat, parameters_in_sync := false })
  else
    (Except.ok (), r)

/-- `cw_rec_set_gap_internal` (libcw_rec.c lines 617-633): EINVAL outside
[CW_GAP_MIN, CW_GAP_MAX], otherwise set the gap and (on a change)
resynchronize. -/
def cw_rec_set_gap_internal (r : cw_rec_t) (new_value : Int) :
    Except Errno Unit × cw_rec_t :=
  if new_value < (CW_GAP_MIN : Int) ∨ new_value > (CW_GAP_MAX : Int) then
    (Except.error Errno.EINVAL, r)
  else if new_value ≠ (r.gap : Int) then
    (Except.ok (), cw_rec_sync_parameters_internal
      { r with gap := new_value.toNat, parameters_in_sync := false })
  else
    (Except.ok (), r)

/-- The initial value of the module-level receiver `cw_receiver`
(libcw_rec.c lines 292-353). -/
def cw_receiver : cw_rec_t :=
  { state := RecState.RS_IDLE
    speed := CW_SPEED_INITIAL
    tolerance := CW_TOLERANCE_INITIAL
    gap := CW_GAP_INITIAL
    is_adaptive_receive_mode := false
    noise_spike_threshold := (CW_DOT_CALIBRATION / CW_SPEED_MAX) / 2
    adaptive_speed_threshold := (CW_DOT_CALIBRATION / CW_SPEED_INITIAL) * 2
    mark_start := 0
    mark_end := 0
    representation := []
    dot_len_ideal := 0
    dot_len_min := 0
    dot_len_max := 0
    dash_len_ideal := 0
    dash_len_min := 0
    dash_len_max := 0
    eom_len_ideal := 0
    eom_len_min := 0
    eom_len_max := 0
    eoc_len_ideal := 0
    eoc_len_min := 0
    eoc_len_max := 0
    additional_delay := 0
    adjustment_delay := 0
    parameters_in_sync := false
    statistics := List.replicate CW_REC_STATISTICS_CAPACITY ⟨stat_type_t.CW_REC_STAT_NONE, 0⟩
    statistics_ind := 0
    dot_averaging := ⟨List.replicate CW_REC_AVERAGING_ARRAY_LENGTH 0, 0, 0, 0⟩
    dash_averaging := ⟨List.replicate CW_REC_AVERAGING_ARRAY_LENGTH 0, 0, 0, 0⟩ }


/-! ### Helper lemmas about parameter synchronization -/

theorem sync_of_in_sync (r : cw_rec_t) (h : r.parameters_in_sync = true) :
    cw_rec_sync_parameters_internal r = r := by
  unfold cw_rec_sync_parameters_internal
  simp [h]

/-- Closed form of `cw_rec_sync_parameters_internal` in fixed (non-adaptive)
mode, on a receiver whose parameters are out of sync. -/
theorem sync_fixed_eq (r : cw_rec_t)
    (ha : r.is_adaptive_receive_mode = false)
    (hs : r.parameters_in_sync = false) :
    cw_rec_sync_parameters_internal r =
      { r with
        adaptive_speed_threshold := 2 * (CW_DOT_CALIBRATION / r.speed)
        dot_len_ideal := CW_DOT_CALIBRATION / r.speed
        dash_len_ideal := 3 * (CW_DOT_CALIBRATION / r.speed)
        eom_len_ideal := CW_DOT_CALIBRATION / r.speed
        eoc_len_ideal := 3 * (CW_DOT_CALIBRATION / r.speed)
        additional_delay := r.gap * (CW_DOT_CALIBRATION / r.speed)
        adjustment_delay := (7 * (r.gap * (CW_DOT_CALIBRATION / r.speed))) / 3
        dot_len_min := CW_DOT_CALIBRATION / r.speed -
          ((CW_DOT_CALIBRATION / r.speed) * r.tolerance) / 100
        dot_len_max := CW_DOT_CALIBRATION / r.speed +
          ((CW_DOT_CALIBRATION / r.speed) * r.tolerance) / 100
        dash_len_min := 3 * (CW_DOT_CALIBRATION / r.speed) -
          ((CW_DOT_CALIBRATION / r.speed) * r.tolerance) / 100
        dash_len_max := 3 * (CW_DOT_CALIBRATION / r.speed) +
          ((CW_DOT_CALIBRATION / r.speed) * r.tolerance) / 100
        eom_len_min := CW_DOT_CALIBRATION / r.speed -
          ((CW_DOT_CALIBRATION / r.speed) * r.tolerance) / 100
        eom_len_max := CW_DOT_CALIBRATION / r.speed +
          ((CW_DOT_CALIBRATION / r.speed) * r.tolerance) / 100
        eoc_len_min := 3 * (CW_DOT_CALIBRATION / r.speed) -
          ((CW_DOT_CALIBRATION / r.speed) * r.tolerance) / 100
        eoc_len_max := 3 * (CW_DOT_CALIBRATION / r.speed) +
          ((CW_DOT_CALIBRATION / r.speed) * r.tolerance) / 100 +
          r.gap * (CW_DOT_CALIBRATION / r.speed) +
          (7 * (r.gap * (CW_DOT_CALIBRATION / r.speed))) / 3
        parameters_in_sync := true } := by
  unfold cw_rec_sync_parameters_internal
  simp [ha, hs]

/-- Closed form of `cw_rec_sync_parameters_internal` in adaptive mode, on a
receiver whose parameters are out of sync.  Note that the unit length (and
with it every range) is derived from the speed the receiver had at entry,
not from the speed just recomputed from the threshold (the FIXME at
libcw_rec.c line 2034). -/
theorem sync_adaptive_eq (r : cw_rec_t)
    (ha : r.is_adaptive_receive_mode = true)
    (hs : r.parameters_in_sync = false) :
    cw_rec_sync_parameters_internal r =
      { r with
        speed := CW_DOT_CALIBRATION / (r.adaptive_speed_threshold / 2)
        dot_len_ideal := CW_DOT_CALIBRATION / r.speed
        dash_len_ideal := 3 * (CW_DOT_CALIBRATION / r.speed)
        eom_len_ideal := CW_DOT_CALIBRATION / r.speed
        eoc_len_ideal := 3 * (CW_DOT_CALIBRATION / r.speed)
        additional_delay := r.gap * (CW_DOT_CALIBRATION / r.speed)
        adjustment_delay := (7 * (r.gap * (CW_DOT_CALIBRATION / r.speed))) / 3
        dot_len_min := 0
        dot_len_max := 2 * (CW_DOT_CALIBRATION / r.speed)
        dash_len_min := 2 * (CW_DOT_CALIBRATION / r.speed)
        dash_len_max := INT_MAX
        eom_len_min := 0
        eom_len_max := 2 * (CW_DOT_CALIBRATION / r.speed)
        eoc_len_min := 2 * (CW_DOT_CALIBRATION / r.speed)
        eoc_len_max := 5 * (CW_DOT_CALIBRATION / r.speed)
        parameters_in_sync := true } := by
  unfold cw_rec_sync_parameters_internal
  simp [ha, hs]

theorem sync_parameters_in_sync (r : cw_rec_t) :
    (cw_rec_sync_parameters_internal r).parameters_in_sync = true := by
  cases hs : r.parameters_in_sync
  · cases ha : r.is_adaptive_receive_mode
    · rw [sync_fixed_eq r ha hs]
    · rw [sync_adaptive_eq r ha hs]
  · rw [sync_of_in_sync r hs]; exact hs

theorem sync_state (r : cw_rec_t) :
    (cw_rec_sync_parameters_internal r).state = r.state := by
  cases hs : r.parameters_in_sync
  · cases ha : r.is_adaptive_receive_mode
    · rw [sync_fixed_eq r ha hs]
    · rw [sync_adaptive_eq r ha hs]
  · rw [sync_of_in_sync r hs]

theorem sync_representation (r : cw_rec_t) :
    (cw_rec_sync_parameters_internal r).representation = r.representation := by
  cases hs : r.parameters_in_sync
  · cases ha : r.is_adaptive_receive_mode
    · rw [sync_fixed_eq r ha hs]
    · rw [sync_adaptive_eq r ha hs]
  · rw [sync_of_in_sync r hs]

theorem sync_mark_start (r : cw_rec_t) :
    (cw_rec_sync_parameters_internal r).mark_start = r.mark_start := by
  cases hs : r.parameters_in_sync
  · cases ha : r.is_adaptive_receive_mode
    · rw [sync_fixed_eq r ha hs]
    · rw [sync_adaptive_eq r ha hs]
  · rw [sync_of_in_sync r hs]

theorem sync_mark_end (r : cw_rec_t) :
    (cw_rec_sync_parameters_internal r).mark_end = r.mark_end := by
  cases hs : r.parameters_in_sync
  · cases ha : r.is_adaptive_receive_mode
    · rw [sync_fixed_eq r ha hs]
    · rw [sync_adaptive_eq r ha hs]
  · rw [sync_of_in_sync r hs]

theorem sync_noise (r : cw_rec_t) :
    (cw_rec_sync_parameters_internal r).noise_spike_threshold =
      r.noise_spike_threshold := by
  cases hs : r.parameters_in_sync
  · cases ha : r.is_adaptive_receive_mode
    · rw [sync_fixed_eq r ha hs]
    · rw [sync_adaptive_eq r ha hs]
  · rw [sync_of_in_sync r hs]

theorem sync_adaptive_flag (r : cw_rec_t) :
    (cw_rec_sync_parameters_internal r).is_adaptive_receive_mode =
      r.is_adaptive_receive_mode := by
  cases hs : r.parameters_in_sync
  · cases ha : r.is_adaptive_receive_mode
    · rw [sync_fixed_eq r ha hs]; exact ha
    · rw [sync_adaptive_eq r ha hs]; exact ha
  · rw [sync_of_in_sync r hs]

theorem sync_dot_averaging (r : cw_rec_t) :
    (cw_rec_sync_parameters_internal r).dot_averaging = r.dot_averaging := by
  cases hs : r.parameters_in_sync
  · cases ha : r.is_adaptive_receive_mode
    · rw [sync_fixed_eq r ha hs]
    · rw [sync_adaptive_eq r ha hs]
  · rw [sync_of_in_sync r hs]

theorem sync_dash_averaging (r : cw_rec_t) :
    (cw_rec_sync_parameters_internal r).dash_averaging = r.dash_averaging := by
  cases hs : r.parameters_in_sync
  · cases ha : r.is_adaptive_receive_mode
    · rw [sync_fixed_eq r ha hs]
    · rw [sync_adaptive_eq r ha hs]
  · rw [sync_of_in_sync r hs]

theorem sync_speed_fixed (r : cw_rec_t) (ha : r.is_adaptive_receive_mode = false) :
    (cw_rec_sync_parameters_internal r).speed = r.speed := by
  cases hs : r.parameters_in_sync
  · rw [sync_fixed_eq r ha hs]
  · rw [sync_of_in_sync r hs]

theorem update_stats_representation (r : cw_rec_t) (type : stat_type_t) (len : Nat) :
    (cw_rec_update_stats_internal r type len).representation = r.representation := by
  simp only [cw_rec_update_stats_internal]
  exact sync_representation r

theorem update_stats_state (r : cw_rec_t) (type : stat_type_t) (len : Nat) :
    (cw_rec_update_stats_internal r type len).state = r.state := by
  simp only [cw_rec_update_stats_internal]
  exact sync_state r

theorem update_stats_mark_start (r : cw_rec_t) (type : stat_type_t) (len : Nat) :
    (cw_rec_update_stats_internal r type len).mark_start = r.mark_start := by
  simp only [cw_rec_update_stats_internal]
  exact sync_mark_start r

theorem update_stats_mark_end (r : cw_rec_t) (type : stat_type_t) (len : Nat) :
    (cw_rec_update_stats_internal r type len).mark_end = r.mark_end := by
  simp only [cw_rec_update_stats_internal]
  exact sync_mark_end r

theorem update_stats_noise (r : cw_rec_t) (type : stat_type_t) (len : Nat) :
    (cw_rec_update_stats_internal r type len).noise_spike_threshold =
      r.noise_spike_threshold := by
  simp only [cw_rec_update_stats_internal]
  exact sync_noise r


/-! ### Concrete receivers used by witnesses and counterexamples -/

/-- The global receiver after its first parameter synchronization
(fixed mode, 12 WPM, tolerance 50): dot range [50000, 150000], dash range
[250000, 350000], eoc range [250000, 350000]. -/
def fixedRec : cw_rec_t := cw_rec_sync_parameters_internal cw_receiver

/-- The global receiver with adaptive mode switched on (flag only). -/
def adaptRec : cw_rec_t := { cw_receiver with is_adaptive_receive_mode := true }

/-! ### C1 -/

/-- C1: with synchronized timing parameters, `cw_rec_identify_mark_internal`
returns success with DOT when the mark length lies in
[dot_len_min, dot_len_max]; otherwise success with DASH when it lies in
[dash_len_min, dash_len_max]; and otherwise fails with errno ENOENT,
producing no mark. -/
theorem claim_C1_identify_mark (r : cw_rec_t) (L : Nat)
    (h : r.parameters_in_sync = true) :
    (r.dot_len_min ≤ L ∧ L ≤ r.dot_len_max →
      cw_rec_identify_mark_internal r L = (Except.ok Mark.dot, r)) ∧
    (¬(r.dot_len_min ≤ L ∧ L ≤ r.dot_len_max) →
      r.dash_len_min ≤ L ∧ L ≤ r.dash_len_max →
      cw_rec_identify_mark_internal r L = (Except.ok Mark.dash, r)) ∧
    (¬(r.dot_len_min ≤ L ∧ L ≤ r.dot_len_max) →
      ¬(r.dash_len_min ≤ L ∧ L ≤ r.dash_len_max) →
      (cw_rec_identify_mark_internal r L).fst = Except.error Errno.ENOENT ∧
      ∀ m : Mark, (cw_rec_identify_mark_internal r L).fst ≠ Except.ok m) := by
  have hr : cw_rec_sync_parameters_internal r = r := sync_of_in_sync r h
  unfold cw_rec_identify_mark_internal
  rw [hr]
  refine ⟨fun h1 => ?_, fun h1 h2 => ?_, fun h1 h2 => ?_⟩
  · rw [if_pos h1]
  · rw [if_neg h1, if_pos h2]
  · rw [if_neg h1, if_neg h2]
    exact ⟨rfl, fun m => by simp⟩

/-- Witness for C1 at the synchronized global receiver and a 100000 µs
mark, which lies in the dot range [50000, 150000]. -/
theorem claim_C1_witness :
    fixedRec.parameters_in_sync = true ∧
    (fixedRec.dot_len_min ≤ 100000 ∧ 100000 ≤ fixedRec.dot_len_max) ∧
    cw_rec_identify_mark_internal fixedRec 100000 = (Except.ok Mark.dot, fixedRec) :=
  ⟨by decide, by decide,
   (claim_C1_identify_mark fixedRec 100000 (by decide)).1 (by decide)⟩

/-! ### C4 -/

/-- A fixed-mode receiver at 4 WPM with tolerance 10 %, parameters dirty. -/
def toleranceRec : cw_rec_t := { cw_receiver with speed := 4, tolerance := 10 }

/-- C4 counterexample: at 4 WPM, tolerance 10 %, the code computes
`dash_len_min = 870000` (tolerance taken from the DOT ideal, 300000 µs),
while the claim's `dash_len_ideal ± (dash_len_ideal*t)/100` would give
`900000 - 90000 = 810000`. -/
theorem claim_C4_counterexample :
    toleranceRec.is_adaptive_receive_mode = false ∧
    toleranceRec.speed = 4 ∧
    toleranceRec.tolerance = 10 ∧
    (cw_rec_sync_parameters_internal toleranceRec).dash_len_ideal = 900000 ∧
    (cw_rec_sync_parameters_internal toleranceRec).dash_len_min = 870000 ∧
    (cw_rec_sync_parameters_internal toleranceRec).dash_len_min ≠
      (cw_rec_sync_parameters_internal toleranceRec).dash_len_ideal -
        ((cw_rec_sync_parameters_internal toleranceRec).dash_len_ideal *
          toleranceRec.tolerance) / 100 := by
  decide

/-- C4 amended: in fixed mode, for every speed w in [4, 60] and tolerance t
in [0, 90], synchronization yields `dot_len_ideal = 1200000 / w`,
`dash_len_ideal = 3 * dot_len_ideal`, and both acceptance ranges are the
respective ideal plus/minus `(dot_len_ideal * t) / 100` — the tolerance
margin is computed from the DOT ideal for the dash range as well. -/
theorem claim_C4_amended (r : cw_rec_t)
    (ha : r.is_adaptive_receive_mode = false)
    (hs : r.parameters_in_sync = false)
    (hw1 : CW_SPEED_MIN ≤ r.speed) (hw2 : r.speed ≤ CW_SPEED_MAX)
    (ht : r.tolerance ≤ CW_TOLERANCE_MAX) :
    (cw_rec_sync_parameters_internal r).dot_len_ideal =
      CW_DOT_CALIBRATION / r.speed ∧
    (cw_rec_sync_parameters_internal r).dash_len_ideal =
      3 * (CW_DOT_CALIBRATION / r.speed) ∧
    (cw_rec_sync_parameters_internal r).dot_len_min =
      CW_DOT_CALIBRATION / r.speed -
        ((CW_DOT_CALIBRATION / r.speed) * r.tolerance) / 100 ∧
    (cw_rec_sync_parameters_internal r).dot_len_max =
      CW_DOT_CALIBRATION / r.speed +
        ((CW_DOT_CALIBRATION / r.speed) * r.tolerance) / 100 ∧
    (cw_rec_sync_parameters_internal r).dash_len_min =
      3 * (CW_DOT_CALIBRATION / r.speed) -
        ((CW_DOT_CALIBRATION / r.speed) * r.tolerance) / 100 ∧
    (cw_rec_sync_parameters_internal r).dash_len_max =
      3 * (CW_DOT_CALIBRATION / r.speed) +
        ((CW_DOT_CALIBRATION / r.speed) * r.tolerance) / 100 := by
  rw [sync_fixed_eq r ha hs]
  exact ⟨rfl, rfl, rfl, rfl, rfl, rfl⟩

/-- Witness for C4 at the initial global receiver (12 WPM, tolerance 50). -/
theorem claim_C4_witness :
    (cw_rec_sync_parameters_internal cw_receiver).dot_len_ideal =
      CW_DOT_CALIBRATION / cw_receiver.speed ∧
    (cw_rec_sync_parameters_internal cw_receiver).dash_len_ideal =
      3 * (CW_DOT_CALIBRATION / cw_receiver.speed) ∧
    (cw_rec_sync_parameters_internal cw_receiver).dot_len_min =
      CW_DOT_CALIBRATION / cw_receiver.speed -
        ((CW_DOT_CALIBRATION / cw_receiver.speed) * cw_receiver.tolerance) / 100 ∧
    (cw_rec_sync_parameters_internal cw_receiver).dot_len_max =
      CW_DOT_CALIBRATION / cw_receiver.speed +
        ((CW_DOT_CALIBRATION / cw_receiver.speed) * cw_receiver.tolerance) / 100 ∧
    (cw_rec_sync_parameters_internal cw_receiver).dash_len_min =
      3 * (CW_DOT_CALIBRATION / cw_receiver.speed) -
        ((CW_DOT_CALIBRATION / cw_receiver.speed) * cw_receiver.tolerance) / 100 ∧
    (cw_rec_sync_parameters_internal cw_receiver).dash_len_max =
      3 * (CW_DOT_CALIBRATION / cw_receiver.speed) +
        ((CW_DOT_CALIBRATION / cw_receiver.speed) * cw_receiver.tolerance) / 100 :=
  claim_C4_amended cw_receiver (by decide) (by decide) (by decide) (by decide) (by decide)

/-! ### C5 -/

/-- An adaptive receiver whose dot moving average (50000 µs) disagrees with
the unit length derived from its speed (12 WPM, unit 100000 µs). -/
def adaptAvgRec : cw_rec_t := { cw_receiver with
  is_adaptive_receive_mode := true
  dot_averaging := ⟨List.replicate 4 50000, 0, 200000, 50000⟩
  dash_averaging := ⟨List.replicate 4 150000, 0, 600000, 150000⟩ }

/-- C5 counterexample: after adaptive synchronization the dot range is
[0, 200000] (twice the unit length from the receiver's speed), not
[0, 2*avg_dot] = [0, 100000]; moreover the dash range starts AT
`dot_len_max` (inclusive), not strictly above it. -/
theorem claim_C5_counterexample :
    adaptAvgRec.is_adaptive_receive_mode = true ∧
    adaptAvgRec.dot_averaging.average = 50000 ∧
    (cw_rec_sync_parameters_internal adaptAvgRec).dot_len_max = 200000 ∧
    (cw_rec_sync_parameters_internal adaptAvgRec).dot_len_max ≠
      2 * adaptAvgRec.dot_averaging.average ∧
    (cw_rec_sync_parameters_internal adaptAvgRec).dot_len_max ≠
      2 * (cw_rec_sync_parameters_internal adaptAvgRec).dot_averaging.average ∧
    (cw_rec_sync_parameters_internal adaptAvgRec).dash_len_min =
      (cw_rec_sync_parameters_internal adaptAvgRec).dot_len_max := by
  decide

/-- C5 amended: after adaptive synchronization the dot range is
[0, 2*u] and the dash range is [2*u, INT_MAX] (lower bound inclusive),
where u = CW_DOT_CALIBRATION / speed-at-entry; hence every mark length up
to INT_MAX is classified as a dot or a dash and
`cw_rec_identify_mark_internal` never returns the unrecognized-mark
error. -/
theorem claim_C5_amended (r : cw_rec_t)
    (ha : r.is_adaptive_receive_mode = true)
    (hs : r.parameters_in_sync = false) :
    (cw_rec_sync_parameters_internal r).dot_len_min = 0 ∧
    (cw_rec_sync_parameters_internal r).dot_len_max =
      2 * (CW_DOT_CALIBRATION / r.speed) ∧
    (cw_rec_sync_parameters_internal r).dash_len_min =
      2 * (CW_DOT_CALIBRATION / r.speed) ∧
    (cw_rec_sync_parameters_internal r).dash_len_max = INT_MAX ∧
    ∀ L : Nat, L ≤ INT_MAX →
      ∃ m : Mark,
        (cw_rec_identify_mark_internal (cw_rec_sync_parameters_internal r) L).fst =
          Except.ok m := by
  rw [sync_adaptive_eq r ha hs]
  refine ⟨rfl, rfl, rfl, rfl, fun L hL => ?_⟩
  set s : cw_rec_t := { r with
    speed := CW_DOT_CALIBRATION / (r.adaptive_speed_threshold / 2)
    dot_len_ideal := CW_DOT_CALIBRATION / r.speed
    dash_len_ideal := 3 * (CW_DOT_CALIBRATION / r.speed)
    eom_len_ideal := CW_DOT_CALIBRATION / r.speed
    eoc_len_ideal := 3 * (CW_DOT_CALIBRATION / r.speed)
    additional_delay := r.gap * (CW_DOT_CALIBRATION / r.speed)
    adjustment_delay := (7 * (r.gap * (CW_DOT_CALIBRATION / r.speed))) / 3
    dot_len_min := 0
    dot_len_max := 2 * (CW_DOT_CALIBRATION / r.speed)
    dash_len_min := 2 * (CW_DOT_CALIBRATION / r.speed)
    dash_len_max := INT_MAX
    eom_len_min := 0
    eom_len_max := 2 * (CW_DOT_CALIBRATION / r.speed)
    eoc_len_min := 2 * (CW_DOT_CALIBRATION / r.speed)
    eoc_len_max := 5 * (CW_DOT_CALIBRATION / r.speed)
    parameters_in_sync := true } with hsdef
  have hins : cw_rec_sync_parameters_internal s = s := sync_of_in_sync s rfl
  unfold cw_rec_identify_mark_internal
  rw [hins]
  by_cases hdot : s.dot_len_min ≤ L ∧ L ≤ s.dot_len_max
  · exact ⟨Mark.dot, by rw [if_pos hdot]⟩
  · refine ⟨Mark.dash, ?_⟩
    rw [if_neg hdot]
    have hge : s.dash_len_min ≤ L := by
      rcases Nat.lt_or_ge L (s.dot_len_max + 1) with hlt | hge2
      · exact absurd ⟨Nat.zero_le L, Nat.lt_succ_iff.mp hlt⟩ hdot
      · exact Nat.le_of_succ_le hge2
    rw [if_pos ⟨hge, hL⟩]

/-- Witness for C5 at a concrete adaptive receiver; the 123456 µs mark falls
in the dot range [0, 200000]. -/
theorem claim_C5_witness :
    (cw_rec_sync_parameters_internal adaptAvgRec).dot_len_min = 0 ∧
    (cw_rec_sync_parameters_internal adaptAvgRec).dot_len_max =
      2 * (CW_DOT_CALIBRATION / adaptAvgRec.speed) ∧
    (cw_rec_sync_parameters_internal adaptAvgRec).dash_len_min =
      2 * (CW_DOT_CALIBRATION / adaptAvgRec.speed) ∧
    (cw_rec_sync_parameters_internal adaptAvgRec).dash_len_max = INT_MAX ∧
    (cw_rec_identify_mark_internal
      (cw_rec_sync_parameters_internal adaptAvgRec) 123456).fst =
        Except.ok Mark.dot :=
  ⟨(claim_C5_amended adaptAvgRec (by decide) (by decide)).1,
   (claim_C5_amended adaptAvgRec (by decide) (by decide)).2.1,
   (claim_C5_amended adaptAvgRec (by decide) (by decide)).2.2.1,
   (claim_C5_amended adaptAvgRec (by decide) (by decide)).2.2.2.1,
   rfl⟩

/-! ### C8 -/

/-- C8: `cw_set_receive_speed` fails with EPERM whenever adaptive mode is
on (regardless of the value; the adaptive check takes precedence);
otherwise EINVAL outside [4, 60]; otherwise it succeeds and the receiver's
speed afterwards equals the requested value. -/
theorem claim_C8_set_receive_speed (r : cw_rec_t) (v : Int) :
    (r.is_adaptive_receive_mode = true →
      cw_set_receive_speed r v = (Except.error Errno.EPERM, r)) ∧
    (r.is_adaptive_receive_mode = false →
      (v < (CW_SPEED_MIN : Int) ∨ v > (CW_SPEED_MAX : Int)) →
      cw_set_receive_speed r v = (Except.error Errno.EINVAL, r)) ∧
    (r.is_adaptive_receive_mode = false →
      (CW_SPEED_MIN : Int) ≤ v → v ≤ (CW_SPEED_MAX : Int) →
      (cw_set_receive_speed r v).fst = Except.ok () ∧
      ((cw_set_receive_speed r v).snd.speed : Int) = v) := by
  refine ⟨fun hA => ?_, fun hA hV => ?_, fun hA h1 h2 => ?_⟩
  · unfold cw_set_receive_speed
    rw [if_pos hA]
  · unfold cw_set_receive_speed
    rw [hA]
    simp only [Bool.false_eq_true, if_false]
    rw [if_pos hV]
  · unfold cw_set_receive_speed
    rw [if_neg (by simp [hA])]
    rw [if_neg (by push_neg; exact ⟨h1, h2⟩)]
    by_cases hv : v = (r.speed : Int)
    · rw [if_neg (by simpa using hv)]
      exact ⟨rfl, hv.symm⟩
    · rw [if_pos (by simpa using hv)]
      refine ⟨rfl, ?_⟩
      have hsp : (cw_rec_sync_parameters_internal
          { r with speed := v.toNat, parameters_in_sync := false }).speed =
          v.toNat := sync_speed_fixed _ hA
      show ((cw_rec_sync_parameters_internal
          { r with speed := v.toNat, parameters_in_sync := false }).speed : Int) = v
      rw [hsp]
      exact Int.toNat_of_nonneg (by omega)

/-- Witness for C8: EPERM on an adaptive receiver, and success with updated
speed on the fixed-mode global receiver. -/
theorem claim_C8_witness :
    cw_set_receive_speed adaptRec 20 = (Except.error Errno.EPERM, adaptRec) ∧
    (cw_set_receive_speed cw_receiver 20).fst = Except.ok () ∧
    ((cw_set_receive_speed cw_receiver 20).snd.speed : Int) = 20 :=
  ⟨(claim_C8_set_receive_speed adaptRec 20).1 (by decide),
   ((claim_C8_set_receive_speed cw_receiver 20).2.2 (by decide)
      (by decide) (by decide)).1,
   ((claim_C8_set_receive_speed cw_receiver 20).2.2 (by decide)
      (by decide) (by decide)).2⟩

/-! ### C9 -/

/-- C9 counterexample: on the synchronized global receiver, setting the
speed to 20 WPM returns with `parameters_in_sync = true` and with
`dot_len_ideal` already recomputed to 60000 µs — the resynchronization
happened inside the setter, not lazily at the next use. -/
theorem claim_C9_counterexample :
    fixedRec.parameters_in_sync = true ∧
    fixedRec.dot_len_ideal = 100000 ∧
    (cw_set_receive_speed fixedRec 20).fst = Except.ok () ∧
    (cw_set_receive_speed fixedRec 20).snd.parameters_in_sync = true ∧
    (cw_set_receive_speed fixedRec 20).snd.dot_len_ideal = 60000 := by
  refine ⟨by decide, by decide, rfl, by decide, by decide⟩

/-- C9 amended: every receiver setter (receive speed, tolerance, gap), on
an accepted value change, sets `parameters_in_sync = false` and then
immediately resynchronizes inside the setter (returning with
`parameters_in_sync = true`); `cw_rec_sync_parameters_internal` itself is a
no-op whenever the parameters are already in sync, which is what makes the
recomputation at use sites lazy. -/
theorem claim_C9_amended :
    (∀ (r : cw_rec_t) (v : Int),
      r.is_adaptive_receive_mode = false →
      (CW_SPEED_MIN : Int) ≤ v → v ≤ (CW_SPEED_MAX : Int) →
      v ≠ (r.speed : Int) →
      (cw_set_receive_speed r v).snd =
        cw_rec_sync_parameters_internal
          { r with speed := v.toNat, parameters_in_sync := false } ∧
      (cw_set_receive_speed r v).snd.parameters_in_sync = true) ∧
    (∀ (r : cw_rec_t) (v : Int),
      (CW_TOLERANCE_MIN : Int) ≤ v → v ≤ (CW_TOLERANCE_MAX : Int) →
      v ≠ (r.tolerance : Int) →
      (cw_set_tolerance r v).snd =
        cw_rec_sync_parameters_internal
          { r with tolerance := v.toNat, parameters_in_sync := false } ∧
      (cw_set_tolerance r v).snd.parameters_in_sync = true) ∧
    (∀ (r : cw_rec_t) (v : Int),
      (CW_GAP_MIN : Int) ≤ v → v ≤ (CW_GAP_MAX : Int) →
      v ≠ (r.gap : Int) →
      (cw_rec_set_gap_internal r v).snd =
        cw_rec_sync_parameters_internal
          { r with gap := v.toNat, parameters_in_sync := false } ∧
      (cw_rec_set_gap_internal r v).snd.parameters_in_sync = true) ∧
    (∀ r : cw_rec_t, r.parameters_in_sync = true →
      cw_rec_sync_parameters_internal r = r) := by
  refine ⟨fun r v hA h1 h2 hne => ?_, fun r v h1 h2 hne => ?_,
          fun r v h1 h2 hne => ?_, fun r h => sync_of_in_sync r h⟩
  · unfold cw_set_receive_speed
    rw [if_neg (by simp [hA])]
    rw [if_neg (by push_neg; exact ⟨h1, h2⟩)]
    rw [if_pos hne]
    exact ⟨rfl, sync_parameters_in_sync _⟩
  · unfold cw_set_tolerance
    rw [if_neg (by push_neg; exact ⟨h1, h2⟩)]
    rw [if_pos hne]
    exact ⟨rfl, sync_parameters_in_sync _⟩
  · unfold cw_rec_set_gap_internal
    rw [if_neg (by push_neg; exact ⟨h1, h2⟩)]
    rw [if_pos hne]
    exact ⟨rfl, sync_parameters_in_sync _⟩

/-- Witness for C9: speed 20, tolerance 60 and gap 5 on the global
receiver, plus the no-op of synchronization on an in-sync receiver. -/
theorem claim_C9_witness :
    ((cw_set_receive_speed cw_receiver 20).snd =
      cw_rec_sync_parameters_internal
        { cw_receiver with speed := (20 : Int).toNat, parameters_in_sync := false } ∧
     (cw_set_receive_speed cw_receiver 20).snd.parameters_in_sync = true) ∧
    ((cw_set_tolerance cw_receiver 60).snd =
      cw_rec_sync_parameters_internal
        { cw_receiver with tolerance := (60 : Int).toNat, parameters_in_sync := false } ∧
     (cw_set_tolerance cw_receiver 60).snd.parameters_in_sync = true) ∧
    ((cw_rec_set_gap_internal cw_receiver 5).snd =
      cw_rec_sync_parameters_internal
        { cw_receiver with gap := (5 : Int).toNat, parameters_in_sync := false } ∧
     (cw_rec_set_gap_internal cw_receiver 5).snd.parameters_in_sync = true) ∧
    cw_rec_sync_parameters_internal fixedRec = fixedRec :=
  ⟨(claim_C9_amended.1 cw_receiver 20 (by decide) (by decide) (by decide) (by decide)),
   (claim_C9_amended.2.1 cw_receiver 60 (by decide) (by decide) (by decide)),
   (claim_C9_amended.2.2.1 cw_receiver 5 (by decide) (by decide) (by decide)),
   (claim_C9_amended.2.2.2 fixedRec (by decide))⟩

/-! ### C10 -/

/-- The well-formedness invariant of the moving-average structure: the
buffer has the fixed window length, the cursor stays inside the window,
and `sum` is the sum of the buffered entries. -/
def avgWellFormed (a : cw_rec_averaging_t) : Prop :=
  a.buffer.length = CW_REC_AVERAGING_ARRAY_LENGTH ∧
  a.cursor < CW_REC_AVERAGING_ARRAY_LENGTH ∧
  a.sum = a.buffer.sum

/-- C10: reset and update preserve `cursor ∈ [0, 4)` and
`sum = sum of the 4 buffer entries`; after an update,
`average = sum / 4` (integer division) over the buffered (most recently
recorded) mark lengths; reset fills the buffer with the initial value and
updates `sum` but leaves `average` untouched. -/
theorem claim_C10_moving_average (a : cw_rec_averaging_t) (mark_len initial : Nat)
    (h : avgWellFormed a) :
    avgWellFormed (cw_rec_reset_average_internal a initial) ∧
    avgWellFormed (cw_rec_update_average_internal a mark_len) ∧
    (cw_rec_update_average_internal a mark_len).average =
      (cw_rec_update_average_internal a mark_len).sum /
        CW_REC_AVERAGING_ARRAY_LENGTH ∧
    (cw_rec_update_average_internal a mark_len).buffer =
      a.buffer.set a.cursor mark_len ∧
    (cw_rec_reset_average_internal a initial).buffer =
      List.replicate CW_REC_AVERAGING_ARRAY_LENGTH initial ∧
    (cw_rec_reset_average_internal a initial).sum =
      initial * CW_REC_AVERAGING_ARRAY_LENGTH ∧
    (cw_rec_reset_average_internal a initial).cursor = 0 ∧
    (cw_rec_reset_average_internal a initial).average = a.average := by
  obtain ⟨hlen, hcur, hsum⟩ := h
  rcases a with ⟨buf, cur, sum, avg⟩
  simp only [CW_REC_AVERAGING_ARRAY_LENGTH] at hlen hcur hsum
  refine ⟨⟨?_, ?_, ?_⟩, ⟨?_, ?_, ?_⟩, rfl, rfl, rfl, rfl, rfl, rfl⟩
  · simp [cw_rec_reset_average_internal, CW_REC_AVERAGING_ARRAY_LENGTH]
  · show (0 : Nat) < CW_REC_AVERAGING_ARRAY_LENGTH
    decide
  · simp [cw_rec_reset_average_internal, CW_REC_AVERAGING_ARRAY_LENGTH,
      List.sum_replicate, smul_eq_mul]
    omega
  · simp [cw_rec_update_average_internal, CW_REC_AVERAGING_ARRAY_LENGTH, hlen]
  · show (cur + 1) % CW_REC_AVERAGING_ARRAY_LENGTH < CW_REC_AVERAGING_ARRAY_LENGTH
    simp only [CW_REC_AVERAGING_ARRAY_LENGTH]
    omega
  · show sum - buf.getD cur 0 + mark_len = (buf.set cur mark_len).sum
    rcases buf with _ | ⟨b0, buf⟩
    · simp at hlen
    rcases buf with _ | ⟨b1, buf⟩
    · simp at hlen
    rcases buf with _ | ⟨b2, buf⟩
    · simp at hlen
    rcases buf with _ | ⟨b3, buf⟩
    · simp at hlen
    rcases buf with _ | ⟨b4, buf⟩
    swap
    · simp at hlen
    interval_cases cur <;> simp_all [List.set] <;> omega

/-- Witness for C10 at a concrete well-formed averaging structure. -/
theorem claim_C10_witness :
    avgWellFormed ⟨[3, 5, 7, 9], 2, 24, 6⟩ ∧
    avgWellFormed (cw_rec_reset_average_internal ⟨[3, 5, 7, 9], 2, 24, 6⟩ 11) ∧
    avgWellFormed (cw_rec_update_average_internal ⟨[3, 5, 7, 9], 2, 24, 6⟩ 21) ∧
    (cw_rec_update_average_internal ⟨[3, 5, 7, 9], 2, 24, 6⟩ 21).average =
      (cw_rec_update_average_internal ⟨[3, 5, 7, 9], 2, 24, 6⟩ 21).sum /
        CW_REC_AVERAGING_ARRAY_LENGTH ∧
    (cw_rec_reset_average_internal ⟨[3, 5, 7, 9], 2, 24, 6⟩ 11).average = 6 :=
  ⟨⟨by decide, by decide, by decide⟩,
   (claim_C10_moving_average ⟨[3, 5, 7, 9], 2, 24, 6⟩ 21 11
      ⟨by decide, by decide, by decide⟩).1,
   (claim_C10_moving_average ⟨[3, 5, 7, 9], 2, 24, 6⟩ 21 11
      ⟨by decide, by decide, by decide⟩).2.1,
   (claim_C10_moving_average ⟨[3, 5, 7, 9], 2, 24, 6⟩ 21 11
      ⟨by decide, by decide, by decide⟩).2.2.1,
   by decide⟩


/-! ### C2 -/

/-- C2: polling with the receiver in Mark state fails ("not ready", errno
ERANGE); in Space state with S = now - mark_end: if S is within
[eoc_len_min, eoc_len_max] the receiver moves to the EOC gap and the poll
succeeds with the buffered representation and end_of_word = false; if
S > eoc_len_max it moves to the EOW gap and succeeds with
end_of_word = true; if S < eoc_len_min it fails with errno EAGAIN. -/
theorem claim_C2_poll_representation (r : cw_rec_t) (t : Nat)
    (hsync : r.parameters_in_sync = true)
    (heoc : r.eoc_len_min ≤ r.eoc_len_max) :
    (r.state = RecState.RS_MARK →
      cw_rec_poll_representation_internal r t = (Except.error Errno.ERANGE, r)) ∧
    (r.state = RecState.RS_SPACE →
      cw_timestamp_compare_internal r.mark_end t < INT_MAX →
      ((r.eoc_len_min ≤ cw_timestamp_compare_internal r.mark_end t ∧
          cw_timestamp_compare_internal r.mark_end t ≤ r.eoc_len_max →
        (cw_rec_poll_representation_internal r t).fst =
          Except.ok ⟨r.representation, false, false⟩ ∧
        (cw_rec_poll_representation_internal r t).snd.state =
          RecState.RS_EOC_GAP) ∧
       (cw_timestamp_compare_internal r.mark_end t > r.eoc_len_max →
        (cw_rec_poll_representation_internal r t).fst =
          Except.ok ⟨r.representation, true, false⟩ ∧
        (cw_rec_poll_representation_internal r t).snd.state =
          RecState.RS_EOW_GAP) ∧
       (cw_timestamp_compare_internal r.mark_end t < r.eoc_len_min →
        (cw_rec_poll_representation_internal r t).fst =
          Except.error Errno.EAGAIN))) := by
  constructor
  · intro hm
    unfold cw_rec_poll_representation_internal
    rw [if_neg (by simp [hm]), if_pos (Or.inr hm)]
  · intro hsp hlt
    have hne1 : ¬(r.state = RecState.RS_EOW_GAP ∨ r.state = RecState.RS_EOW_GAP_ERR) := by
      simp [hsp]
    have hne2 : ¬(r.state = RecState.RS_IDLE ∨ r.state = RecState.RS_MARK) := by
      simp [hsp]
    refine ⟨fun hrange => ?_, fun hgt => ?_, fun hlt2 => ?_⟩
    · unfold cw_rec_poll_representation_internal
      rw [if_neg hne1, if_neg hne2,
        if_neg (Nat.ne_of_lt hlt), sync_of_in_sync r hsync, if_pos hrange]
      unfold cw_rec_poll_representation_eoc_internal
      rw [if_pos hsp]
      refine ⟨?_, rfl⟩
      simp [update_stats_representation]
    · unfold cw_rec_poll_representation_internal
      rw [if_neg hne1, if_neg hne2,
        if_neg (Nat.ne_of_lt hlt), sync_of_in_sync r hsync,
        if_neg (by omega), if_pos hgt]
      unfold cw_rec_poll_representation_eow_internal
      rw [if_pos (Or.inr hsp)]
      exact ⟨rfl, rfl⟩
    · unfold cw_rec_poll_representation_internal
      rw [if_neg hne1, if_neg hne2,
        if_neg (Nat.ne_of_lt hlt), sync_of_in_sync r hsync,
        if_neg (by omega), if_neg (by omega)]

/-- The synchronized global receiver, in Space state with one buffered dot
and a mark that ended at 1000 µs. -/
def spaceRec : cw_rec_t := { fixedRec with
  state := RecState.RS_SPACE
  mark_end := 1000
  representation := [Mark.dot] }

/-- Witness for C2: `spaceRec` polled 300000 µs after the end of the mark —
inside the end-of-character range [250000, 350000]. -/
theorem claim_C2_witness :
    spaceRec.parameters_in_sync = true ∧
    (cw_rec_poll_representation_internal spaceRec 301000).fst =
      Except.ok ⟨[Mark.dot], false, false⟩ ∧
    (cw_rec_poll_representation_internal spaceRec 301000).snd.state =
      RecState.RS_EOC_GAP :=
  ⟨by decide,
   ((claim_C2_poll_representation spaceRec 301000 (by decide) (by decide)).2
      rfl (by decide)).1 (by decide)⟩

/-! ### C3 -/

/-- C3: when the noise spike threshold is positive and the measured mark
length (end minus start timestamp) is at or below it, the
mark_begin/mark_end pair fails with errno EAGAIN and rolls the receiver
back: the state becomes Idle when `representation_ind = 0` and Space
otherwise, while `representation_ind`, the representation buffer and the
stored end-of-mark timestamp are exactly as before the event pair. -/
theorem claim_C3_noise_filter (r : cw_rec_t) (t1 t2 : Nat)
    (hstate : r.state = RecState.RS_IDLE ∨ r.state = RecState.RS_SPACE)
    (hthr : 0 < r.noise_spike_threshold)
    (hlen : cw_timestamp_compare_internal t1 t2 ≤ r.noise_spike_threshold) :
    (cw_rec_mark_begin_internal r t1).fst = Except.ok () ∧
    (cw_rec_mark_end_internal (cw_rec_mark_begin_internal r t1).snd t2).fst =
      Except.error Errno.EAGAIN ∧
    (cw_rec_mark_end_internal (cw_rec_mark_begin_internal r t1).snd t2).snd.state =
      (if r.representation_ind = 0 then RecState.RS_IDLE else RecState.RS_SPACE) ∧
    (cw_rec_mark_end_internal (cw_rec_mark_begin_internal r t1).snd t2).snd.representation_ind =
      r.representation_ind ∧
    (cw_rec_mark_end_internal (cw_rec_mark_begin_internal r t1).snd t2).snd.representation =
      r.representation ∧
    (cw_rec_mark_end_internal (cw_rec_mark_begin_internal r t1).snd t2).snd.mark_end =
      r.mark_end := by
  have hne : ¬(r.state ≠ RecState.RS_IDLE ∧ r.state ≠ RecState.RS_SPACE) := by
    rcases hstate with h | h <;> simp [h]
  have hfst : (cw_rec_mark_begin_internal r t1).fst = Except.ok () := by
    unfold cw_rec_mark_begin_internal
    rw [if_neg hne]
  have hkey : (cw_rec_mark_begin_internal r t1).snd.state = RecState.RS_MARK ∧
      (cw_rec_mark_begin_internal r t1).snd.representation = r.representation ∧
      (cw_rec_mark_begin_internal r t1).snd.mark_start = t1 ∧
      (cw_rec_mark_begin_internal r t1).snd.mark_end = r.mark_end ∧
      (cw_rec_mark_begin_internal r t1).snd.noise_spike_threshold =
        r.noise_spike_threshold := by
    unfold cw_rec_mark_begin_internal
    rw [if_neg hne]
    dsimp only
    by_cases hsp : r.state = RecState.RS_SPACE
    · rw [if_pos (show ({ r with mark_start := t1 } : cw_rec_t).state =
        RecState.RS_SPACE from hsp)]
      exact ⟨rfl, update_stats_representation _ _ _, update_stats_mark_start _ _ _,
        update_stats_mark_end _ _ _, update_stats_noise _ _ _⟩
    · rw [if_neg (show ¬({ r with mark_start := t1 } : cw_rec_t).state =
        RecState.RS_SPACE from hsp)]
      exact ⟨rfl, rfl, rfl, rfl, rfl⟩
  obtain ⟨hkstate, hkrepr, hkms, hkme, hknoise⟩ := hkey
  refine ⟨hfst, ?_⟩
  unfold cw_rec_mark_end_internal
  rw [if_neg (by simp [hkstate])]
  have hc : 0 < ({ (cw_rec_mark_begin_internal r t1).snd with
        mark_end := t2 } : cw_rec_t).noise_spike_threshold ∧
      cw_timestamp_compare_internal
        ({ (cw_rec_mark_begin_internal r t1).snd with
          mark_end := t2 } : cw_rec_t).mark_start
        ({ (cw_rec_mark_begin_internal r t1).snd with
          mark_end := t2 } : cw_rec_t).mark_end ≤
      ({ (cw_rec_mark_begin_internal r t1).snd with
        mark_end := t2 } : cw_rec_t).noise_spike_threshold := by
    constructor
    · show 0 < (cw_rec_mark_begin_internal r t1).snd.noise_spike_threshold
      rw [hknoise]; exact hthr
    · show cw_timestamp_compare_internal
          (cw_rec_mark_begin_internal r t1).snd.mark_start t2 ≤
        (cw_rec_mark_begin_internal r t1).snd.noise_spike_threshold
      rw [hkms, hknoise]; exact hlen
  rw [if_pos hc]
  refine ⟨rfl, ?_, ?_, ?_, hkme⟩
  · show (if ({ (cw_rec_mark_begin_internal r t1).snd with
        mark_end := t2 } : cw_rec_t).representation.length = 0
        then RecState.RS_IDLE else RecState.RS_SPACE) =
      (if r.representation_ind = 0 then RecState.RS_IDLE else RecState.RS_SPACE)
    show (if (cw_rec_mark_begin_internal r t1).snd.representation.length = 0
        then RecState.RS_IDLE else RecState.RS_SPACE) =
      (if r.representation_ind = 0 then RecState.RS_IDLE else RecState.RS_SPACE)
    rw [hkrepr]
    rfl
  · show ({ (cw_rec_mark_begin_internal r t1).snd with
        mark_end := t2 } : cw_rec_t).representation.length = r.representation_ind
    show (cw_rec_mark_begin_internal r t1).snd.representation.length =
      r.representation_ind
    rw [hkrepr]
    rfl
  · show ({ (cw_rec_mark_begin_internal r t1).snd with
        mark_end := t2 } : cw_rec_t).representation = r.representation
    show (cw_rec_mark_begin_internal r t1).snd.representation = r.representation
    exact hkrepr

/-! ### C6 support lemmas -/

/-- C's `(d - o) / 2 + o` (truncating division) equals the midpoint
`(d + o) / 2` whenever `o ≤ d`. -/
theorem tdiv_threshold_eq (o d : Nat) (h : o ≤ d) :
    (Int.tdiv ((d : Int) - (o : Int)) 2 + (o : Int)).toNat = (d + o) / 2 := by
  have h1 : (d : Int) - (o : Int) = ((d - o : Nat) : Int) := by
    omega
  rw [h1]
  have h2 : Int.tdiv ((d - o : Nat) : Int) 2 = (((d - o) / 2 : Nat) : Int) := rfl
  rw [h2]
  omega

/-- Closed form of the forced double resynchronization performed by
`cw_rec_update_averages_internal` after clamping the speed: a fixed-mode
sync (which rewrites the threshold to two unit lengths) followed by an
adaptive-mode sync.  Every derived timing ends up consistent with the
speed the receiver entered with. -/
theorem clamp_double_sync
    (st : RecState) (sp tol gp : Nat) (nz thr ms me : Nat)
    (repr : List Mark)
    (v1 v2 v3 v4 v5 v6 v7 v8 v9 v10 v11 v12 v13 v14 : Nat)
    (sts : List cw_rec_statistics_t) (si : Nat)
    (da dsa : cw_rec_averaging_t) :
    cw_rec_sync_parameters_internal
      { cw_rec_sync_parameters_internal
          { state := st, speed := sp, tolerance := tol, gap := gp,
            is_adaptive_receive_mode := false, noise_spike_threshold := nz,
            adaptive_speed_threshold := thr, mark_start := ms, mark_end := me,
            representation := repr, dot_len_ideal := v1, dot_len_min := v2,
            dot_len_max := v3, dash_len_ideal := v4, dash_len_min := v5,
            dash_len_max := v6, eom_len_ideal := v7, eom_len_min := v8,
            eom_len_max := v9, eoc_len_ideal := v10, eoc_len_min := v11,
            eoc_len_max := v12, additional_delay := v13, adjustment_delay := v14,
            parameters_in_sync := false, statistics := sts,
            statistics_ind := si, dot_averaging := da, dash_averaging := dsa } with
        is_adaptive_receive_mode := true
        parameters_in_sync := false } =
      { state := st
        speed := CW_DOT_CALIBRATION / (2 * (CW_DOT_CALIBRATION / sp) / 2)
        tolerance := tol
        gap := gp
        is_adaptive_receive_mode := true
        noise_spike_threshold := nz
        adaptive_speed_threshold := 2 * (CW_DOT_CALIBRATION / sp)
        mark_start := ms
        mark_end := me
        representation := repr
        dot_len_ideal := CW_DOT_CALIBRATION / sp
        dot_len_min := 0
        dot_len_max := 2 * (CW_DOT_CALIBRATION / sp)
        dash_len_ideal := 3 * (CW_DOT_CALIBRATION / sp)
        dash_len_min := 2 * (CW_DOT_CALIBRATION / sp)
        dash_len_max := INT_MAX
        eom_len_ideal := CW_DOT_CALIBRATION / sp
        eom_len_min := 0
        eom_len_max := 2 * (CW_DOT_CALIBRATION / sp)
        eoc_len_ideal := 3 * (CW_DOT_CALIBRATION / sp)
        eoc_len_min := 2 * (CW_DOT_CALIBRATION / sp)
        eoc_len_max := 5 * (CW_DOT_CALIBRATION / sp)
        additional_delay := gp * (CW_DOT_CALIBRATION / sp)
        adjustment_delay := (7 * (gp * (CW_DOT_CALIBRATION / sp))) / 3
        parameters_in_sync := true
        statistics := sts
        statistics_ind := si
        dot_averaging := da
        dash_averaging := dsa } := by
  rw [sync_fixed_eq
    { state := st, speed := sp, tolerance := tol, gap := gp,
      is_adaptive_receive_mode := false, noise_spike_threshold := nz,
      adaptive_speed_threshold := thr, mark_start := ms, mark_end := me,
      representation := repr, dot_len_ideal := v1, dot_len_min := v2,
      dot_len_max := v3, dash_len_ideal := v4, dash_len_min := v5,
      dash_len_max := v6, eom_len_ideal := v7, eom_len_min := v8,
      eom_len_max := v9, eoc_len_ideal := v10, eoc_len_min := v11,
      eoc_len_max := v12, additional_delay := v13, adjustment_delay := v14,
      parameters_in_sync := false, statistics := sts,
      statistics_ind := si, dot_averaging := da, dash_averaging := dsa }
    rfl rfl]
  rw [sync_adaptive_eq _ rfl rfl]


/-! ### C6 -/

/-- C6: on each accepted mark in adaptive mode, the mark length is folded
into the 4-slot moving average of its kind; the adaptive speed threshold is
recomputed as the midpoint (avg_dash + avg_dot)/2 (the code's
`(d - o)/2 + o` with truncating division agrees when avg_dot ≤ avg_dash);
the low-level timings are re-derived from the threshold; the resulting
speed always lies in [CW_SPEED_MIN, CW_SPEED_MAX]; and when the derived
speed `CW_DOT_CALIBRATION / (threshold/2)` fell outside that range, the
clamping forces a second resynchronization pass after which every dot/dash
timing is consistent with the clamped speed.  `o` and `d` name the
post-update dot and dash averages. -/
theorem claim_C6_adaptive_tracking (r : cw_rec_t) (mark_len : Nat) (m : Mark)
    (o d : Nat)
    (ha : r.is_adaptive_receive_mode = true)
    (ho : o = (match m with
      | Mark.dot => cw_rec_update_average_internal r.dot_averaging mark_len
      | Mark.dash => r.dot_averaging).average)
    (hd : d = (match m with
      | Mark.dot => r.dash_averaging
      | Mark.dash => cw_rec_update_average_internal r.dash_averaging mark_len).average)
    (hod : o ≤ d)
    (hsum : 4 ≤ d + o) :
    (cw_rec_update_averages_internal r mark_len m).dot_averaging =
      (match m with
        | Mark.dot => cw_rec_update_average_internal r.dot_averaging mark_len
        | Mark.dash => r.dot_averaging) ∧
    (cw_rec_update_averages_internal r mark_len m).dash_averaging =
      (match m with
        | Mark.dot => r.dash_averaging
        | Mark.dash => cw_rec_update_average_internal r.dash_averaging mark_len) ∧
    (¬(CW_DOT_CALIBRATION / ((d + o) / 2 / 2) < CW_SPEED_MIN ∨
        CW_DOT_CALIBRATION / ((d + o) / 2 / 2) > CW_SPEED_MAX) →
      (cw_rec_update_averages_internal r mark_len m).adaptive_speed_threshold =
        (d + o) / 2 ∧
      (cw_rec_update_averages_internal r mark_len m).speed =
        CW_DOT_CALIBRATION / ((d + o) / 2 / 2)) ∧
    (CW_SPEED_MIN ≤ (cw_rec_update_averages_internal r mark_len m).speed ∧
      (cw_rec_update_averages_internal r mark_len m).speed ≤ CW_SPEED_MAX) ∧
    ((CW_DOT_CALIBRATION / ((d + o) / 2 / 2) < CW_SPEED_MIN ∨
        CW_DOT_CALIBRATION / ((d + o) / 2 / 2) > CW_SPEED_MAX) →
      (cw_rec_update_averages_internal r mark_len m).speed =
        (if CW_DOT_CALIBRATION / ((d + o) / 2 / 2) < CW_SPEED_MIN
          then CW_SPEED_MIN else CW_SPEED_MAX) ∧
      (cw_rec_update_averages_internal r mark_len m).dot_len_ideal =
        CW_DOT_CALIBRATION / (cw_rec_update_averages_internal r mark_len m).speed ∧
      (cw_rec_update_averages_internal r mark_len m).dash_len_ideal =
        3 * (CW_DOT_CALIBRATION / (cw_rec_update_averages_internal r mark_len m).speed) ∧
      (cw_rec_update_averages_internal r mark_len m).dot_len_min = 0 ∧
      (cw_rec_update_averages_internal r mark_len m).dot_len_max =
        2 * (CW_DOT_CALIBRATION / (cw_rec_update_averages_internal r mark_len m).speed) ∧
      (cw_rec_update_averages_internal r mark_len m).dash_len_min =
        2 * (CW_DOT_CALIBRATION / (cw_rec_update_averages_internal r mark_len m).speed) ∧
      (cw_rec_update_averages_internal r mark_len m).dash_len_max = INT_MAX) ∧
    (cw_rec_update_averages_internal r mark_len m).parameters_in_sync = true := by
  cases m
  case dot =>
    dsimp only at ho hd ⊢
    by_cases hcl : (CW_DOT_CALIBRATION / ((d + o) / 2 / 2) < CW_SPEED_MIN ∨
        CW_DOT_CALIBRATION / ((d + o) / 2 / 2) > CW_SPEED_MAX)
    · have hval : cw_rec_update_averages_internal r mark_len Mark.dot =
        { state := r.state
          speed := CW_DOT_CALIBRATION /
            (2 * (CW_DOT_CALIBRATION /
              (if CW_DOT_CALIBRATION / ((d + o) / 2 / 2) < CW_SPEED_MIN
                then CW_SPEED_MIN else CW_SPEED_MAX)) / 2)
          tolerance := r.tolerance
          gap := r.gap
          is_adaptive_receive_mode := true
          noise_spike_threshold := r.noise_spike_threshold
          adaptive_speed_threshold := 2 * (CW_DOT_CALIBRATION /
            (if CW_DOT_CALIBRATION / ((d + o) / 2 / 2) < CW_SPEED_MIN
              then CW_SPEED_MIN else CW_SPEED_MAX))
          mark_start := r.mark_start
          mark_end := r.mark_end
          representation := r.representation
          dot_len_ideal := CW_DOT_CALIBRATION /
            (if CW_DOT_CALIBRATION / ((d + o) / 2 / 2) < CW_SPEED_MIN
              then CW_SPEED_MIN else CW_SPEED_MAX)
          dot_len_min := 0
          dot_len_max := 2 * (CW_DOT_CALIBRATION /
            (if CW_DOT_CALIBRATION / ((d + o) / 2 / 2) < CW_SPEED_MIN
              then CW_SPEED_MIN else CW_SPEED_MAX))
          dash_len_ideal := 3 * (CW_DOT_CALIBRATION /
            (if CW_DOT_CALIBRATION / ((d + o) / 2 / 2) < CW_SPEED_MIN
              then CW_SPEED_MIN else CW_SPEED_MAX))
          dash_len_min := 2 * (CW_DOT_CALIBRATION /
            (if CW_DOT_CALIBRATION / ((d + o) / 2 / 2) < CW_SPEED_MIN
              then CW_SPEED_MIN else CW_SPEED_MAX))
          dash_len_max := INT_MAX
          eom_len_ideal := CW_DOT_CALIBRATION /
            (if CW_DOT_CALIBRATION / ((d + o) / 2 / 2) < CW_SPEED_MIN
              then CW_SPEED_MIN else CW_SPEED_MAX)
          eom_len_min := 0
          eom_len_max := 2 * (CW_DOT_CALIBRATION /
            (if CW_DOT_CALIBRATION / ((d + o) / 2 / 2) < CW_SPEED_MIN
              then CW_SPEED_MIN else CW_SPEED_MAX))
          eoc_len_ideal := 3 * (CW_DOT_CALIBRATION /
            (if CW_DOT_CALIBRATION / ((d + o) / 2 / 2) < CW_SPEED_MIN
              then CW_SPEED_MIN else CW_SPEED_MAX))
          eoc_len_min := 2 * (CW_DOT_CALIBRATION /
            (if CW_DOT_CALIBRATION / ((d + o) / 2 / 2) < CW_SPEED_MIN
              then CW_SPEED_MIN else CW_SPEED_MAX))
          eoc_len_max := 5 * (CW_DOT_CALIBRATION /
            (if CW_DOT_CALIBRATION / ((d + o) / 2 / 2) < CW_SPEED_MIN
              then CW_SPEED_MIN else CW_SPEED_MAX))
          additional_delay := r.gap * (CW_DOT_CALIBRATION /
            (if CW_DOT_CALIBRATION / ((d + o) / 2 / 2) < CW_SPEED_MIN
              then CW_SPEED_MIN else CW_SPEED_MAX))
          adjustment_delay := (7 * (r.gap * (CW_DOT_CALIBRATION /
            (if CW_DOT_CALIBRATION / ((d + o) / 2 / 2) < CW_SPEED_MIN
              then CW_SPEED_MIN else CW_SPEED_MAX)))) / 3
          parameters_in_sync := true
          statistics := r.statistics
          statistics_ind := r.statistics_ind
          dot_averaging := cw_rec_update_average_internal r.dot_averaging mark_len
          dash_averaging := r.dash_averaging } := by
        unfold cw_rec_update_averages_internal
        rw [if_neg (by simp [ha]), if_pos rfl]
        dsimp only
        rw [← ho, ← hd, tdiv_threshold_eq o d hod]
        rw [sync_adaptive_eq _ (by exact ha) (by rfl)]
        dsimp only
        rw [if_pos hcl]
        rw [clamp_double_sync]
      rw [hval]
      by_cases hlow : CW_DOT_CALIBRATION / ((d + o) / 2 / 2) < CW_SPEED_MIN
      · rw [if_pos hlow]
        exact ⟨rfl, rfl, fun hno => absurd hcl hno,
          (by show CW_SPEED_MIN ≤ CW_DOT_CALIBRATION / (2 * (CW_DOT_CALIBRATION / CW_SPEED_MIN) / 2) ∧
                CW_DOT_CALIBRATION / (2 * (CW_DOT_CALIBRATION / CW_SPEED_MIN) / 2) ≤ CW_SPEED_MAX
              decide),
          fun hcl2 =>
            ⟨(by show CW_DOT_CALIBRATION / (2 * (CW_DOT_CALIBRATION / CW_SPEED_MIN) / 2) = CW_SPEED_MIN
                 decide),
             (by show CW_DOT_CALIBRATION / CW_SPEED_MIN =
                   CW_DOT_CALIBRATION / (CW_DOT_CALIBRATION / (2 * (CW_DOT_CALIBRATION / CW_SPEED_MIN) / 2))
                 decide),
             (by show 3 * (CW_DOT_CALIBRATION / CW_SPEED_MIN) =
                   3 * (CW_DOT_CALIBRATION / (CW_DOT_CALIBRATION / (2 * (CW_DOT_CALIBRATION / CW_SPEED_MIN) / 2)))
                 decide),
             rfl,
             (by show 2 * (CW_DOT_CALIBRATION / CW_SPEED_MIN) =
                   2 * (CW_DOT_CALIBRATION / (CW_DOT_CALIBRATION / (2 * (CW_DOT_CALIBRATION / CW_SPEED_MIN) / 2)))
                 decide),
             (by show 2 * (CW_DOT_CALIBRATION / CW_SPEED_MIN) =
                   2 * (CW_DOT_CALIBRATION / (CW_DOT_CALIBRATION / (2 * (CW_DOT_CALIBRATION / CW_SPEED_MIN) / 2)))
                 decide),
             rfl⟩, rfl⟩
      · rw [if_neg hlow]
        exact ⟨rfl, rfl, fun hno => absurd hcl hno,
          (by show CW_SPEED_MIN ≤ CW_DOT_CALIBRATION / (2 * (CW_DOT_CALIBRATION / CW_SPEED_MAX) / 2) ∧
                CW_DOT_CALIBRATION / (2 * (CW_DOT_CALIBRATION / CW_SPEED_MAX) / 2) ≤ CW_SPEED_MAX
              decide),
          fun hcl2 =>
            ⟨(by show CW_DOT_CALIBRATION / (2 * (CW_DOT_CALIBRATION / CW_SPEED_MAX) / 2) = CW_SPEED_MAX
                 decide),
             (by show CW_DOT_CALIBRATION / CW_SPEED_MAX =
                   CW_DOT_CALIBRATION / (CW_DOT_CALIBRATION / (2 * (CW_DOT_CALIBRATION / CW_SPEED_MAX) / 2))
                 decide),
             (by show 3 * (CW_DOT_CALIBRATION / CW_SPEED_MAX) =
                   3 * (CW_DOT_CALIBRATION / (CW_DOT_CALIBRATION / (2 * (CW_DOT_CALIBRATION / CW_SPEED_MAX) / 2)))
                 decide),
             rfl,
             (by show 2 * (CW_DOT_CALIBRATION / CW_SPEED_MAX) =
                   2 * (CW_DOT_CALIBRATION / (CW_DOT_CALIBRATION / (2 * (CW_DOT_CALIBRATION / CW_SPEED_MAX) / 2)))
                 decide),
             (by show 2 * (CW_DOT_CALIBRATION / CW_SPEED_MAX) =
                   2 * (CW_DOT_CALIBRATION / (CW_DOT_CALIBRATION / (2 * (CW_DOT_CALIBRATION / CW_SPEED_MAX) / 2)))
                 decide),
             rfl⟩, rfl⟩
    · have hval : cw_rec_update_averages_internal r mark_len Mark.dot =
        { state := r.state
          speed := CW_DOT_CALIBRATION / ((d + o) / 2 / 2)
          tolerance := r.tolerance
          gap := r.gap
          is_adaptive_receive_mode := r.is_adaptive_receive_mode
          noise_spike_threshold := r.noise_spike_threshold
          adaptive_speed_threshold := (d + o) / 2
          mark_start := r.mark_start
          mark_end := r.mark_end
          representation := r.representation
          dot_len_ideal := CW_DOT_CALIBRATION / r.speed
          dot_len_min := 0
          dot_len_max := 2 * (CW_DOT_CALIBRATION / r.speed)
          dash_len_ideal := 3 * (CW_DOT_CALIBRATION / r.speed)
          dash_len_min := 2 * (CW_DOT_CALIBRATION / r.speed)
          dash_len_max := INT_MAX
          eom_len_ideal := CW_DOT_CALIBRATION / r.speed
          eom_len_min := 0
          eom_len_max := 2 * (CW_DOT_CALIBRATION / r.speed)
          eoc_len_ideal := 3 * (CW_DOT_CALIBRATION / r.speed)
          eoc_len_min := 2 * (CW_DOT_CALIBRATION / r.speed)
          eoc_len_max := 5 * (CW_DOT_CALIBRATION / r.speed)
          additional_delay := r.gap * (CW_DOT_CALIBRATION / r.speed)
          adjustment_delay := (7 * (r.gap * (CW_DOT_CALIBRATION / r.speed))) / 3
          parameters_in_sync := true
          statistics := r.statistics
          statistics_ind := r.statistics_ind
          dot_averaging := cw_rec_update_average_internal r.dot_averaging mark_len
          dash_averaging := r.dash_averaging } := by
        unfold cw_rec_update_averages_internal
        rw [if_neg (by simp [ha]), if_pos rfl]
        dsimp only
        rw [← ho, ← hd, tdiv_threshold_eq o d hod]
        rw [sync_adaptive_eq _ (by exact ha) (by rfl)]
        dsimp only
        rw [if_neg hcl]
      rw [hval]
      refine ⟨rfl, rfl, fun _ => ⟨rfl, rfl⟩, ⟨?_, ?_⟩,
        fun hcl2 => absurd hcl2 hcl, rfl⟩
      · show CW_SPEED_MIN ≤ CW_DOT_CALIBRATION / ((d + o) / 2 / 2)
        omega
      · show CW_DOT_CALIBRATION / ((d + o) / 2 / 2) ≤ CW_SPEED_MAX
        omega
  case dash =>
    dsimp only at ho hd ⊢
    by_cases hcl : (CW_DOT_CALIBRATION / ((d + o) / 2 / 2) < CW_SPEED_MIN ∨
        CW_DOT_CALIBRATION / ((d + o) / 2 / 2) > CW_SPEED_MAX)
    · have hval : cw_rec_update_averages_internal r mark_len Mark.dash =
        { state := r.state
          speed := CW_DOT_CALIBRATION /
            (2 * (CW_DOT_CALIBRATION /
              (if CW_DOT_CALIBRATION / ((d + o) / 2 / 2) < CW_SPEED_MIN
                then CW_SPEED_MIN else CW_SPEED_MAX)) / 2)
          tolerance := r.tolerance
          gap := r.gap
          is_adaptive_receive_mode := true
          noise_spike_threshold := r.noise_spike_threshold
          adaptive_speed_threshold := 2 * (CW_DOT_CALIBRATION /
            (if CW_DOT_CALIBRATION / ((d + o) / 2 / 2) < CW_SPEED_MIN
              then CW_SPEED_MIN else CW_SPEED_MAX))
          mark_start := r.mark_start
          mark_end := r.mark_end
          representation := r.representation
          dot_len_ideal := CW_DOT_CALIBRATION /
            (if CW_DOT_CALIBRATION / ((d + o) / 2 / 2) < CW_SPEED_MIN
              then CW_SPEED_MIN else CW_SPEED_MAX)
          dot_len_min := 0
          dot_len_max := 2 * (CW_DOT_CALIBRATION /
            (if CW_DOT_CALIBRATION / ((d + o) / 2 / 2) < CW_SPEED_MIN
              then CW_SPEED_MIN else CW_SPEED_MAX))
          dash_len_ideal := 3 * (CW_DOT_CALIBRATION /
            (if CW_DOT_CALIBRATION / ((d + o) / 2 / 2) < CW_SPEED_MIN
              then CW_SPEED_MIN else CW_SPEED_MAX))
          dash_len_min := 2 * (CW_DOT_CALIBRATION /
            (if CW_DOT_CALIBRATION / ((d + o) / 2 / 2) < CW_SPEED_MIN
              then CW_SPEED_MIN else CW_SPEED_MAX))
          dash_len_max := INT_MAX
          eom_len_ideal := CW_DOT_CALIBRATION /
            (if CW_DOT_CALIBRATION / ((d + o) / 2 / 2) < CW_SPEED_MIN
              then CW_SPEED_MIN else CW_SPEED_MAX)
          eom_len_min := 0
          eom_len_max := 2 * (CW_DOT_CALIBRATION /
            (if CW_DOT_CALIBRATION / ((d + o) / 2 / 2) < CW_SPEED_MIN
              then CW_SPEED_MIN else CW_SPEED_MAX))
          eoc_len_ideal := 3 * (CW_DOT_CALIBRATION /
            (if CW_DOT_CALIBRATION / ((d + o) / 2 / 2) < CW_SPEED_MIN
              then CW_SPEED_MIN else CW_SPEED_MAX))
          eoc_len_min := 2 * (CW_DOT_CALIBRATION /
            (if CW_DOT_CALIBRATION / ((d + o) / 2 / 2) < CW_SPEED_MIN
              then CW_SPEED_MIN else CW_SPEED_MAX))
          eoc_len_max := 5 * (CW_DOT_CALIBRATION /
            (if CW_DOT_CALIBRATION / ((d + o) / 2 / 2) < CW_SPEED_MIN
              then CW_SPEED_MIN else CW_SPEED_MAX))
          additional_delay := r.gap * (CW_DOT_CALIBRATION /
            (if CW_DOT_CALIBRATION / ((d + o) / 2 / 2) < CW_SPEED_MIN
              then CW_SPEED_MIN else CW_SPEED_MAX))
          adjustment_delay := (7 * (r.gap * (CW_DOT_CALIBRATION /
            (if CW_DOT_CALIBRATION / ((d + o) / 2 / 2) < CW_SPEED_MIN
              then CW_SPEED_MIN else CW_SPEED_MAX)))) / 3
          parameters_in_sync := true
          statistics := r.statistics
          statistics_ind := r.statistics_ind
          dot_averaging := r.dot_averaging
          dash_averaging := cw_rec_update_average_internal r.dash_averaging mark_len } := by
        unfold cw_rec_update_averages_internal
        rw [if_neg (by simp [ha]), if_neg (show ¬(Mark.dash = Mark.dot) by decide)]
        dsimp only
        rw [← ho, ← hd, tdiv_threshold_eq o d hod]
        rw [sync_adaptive_eq _ (by exact ha) (by rfl)]
        dsimp only
        rw [if_pos hcl]
        rw [clamp_double_sync]
      rw [hval]
      by_cases hlow : CW_DOT_CALIBRATION / ((d + o) / 2 / 2) < CW_SPEED_MIN
      · rw [if_pos hlow]
        exact ⟨rfl, rfl, fun hno => absurd hcl hno,
          (by show CW_SPEED_MIN ≤ CW_DOT_CALIBRATION / (2 * (CW_DOT_CALIBRATION / CW_SPEED_MIN) / 2) ∧
                CW_DOT_CALIBRATION / (2 * (CW_DOT_CALIBRATION / CW_SPEED_MIN) / 2) ≤ CW_SPEED_MAX
              decide),
          fun hcl2 =>
            ⟨(by show CW_DOT_CALIBRATION / (2 * (CW_DOT_CALIBRATION / CW_SPEED_MIN) / 2) = CW_SPEED_MIN
                 decide),
             (by show CW_DOT_CALIBRATION / CW_SPEED_MIN =
                   CW_DOT_CALIBRATION / (CW_DOT_CALIBRATION / (2 * (CW_DOT_CALIBRATION / CW_SPEED_MIN) / 2))
                 decide),
             (by show 3 * (CW_DOT_CALIBRATION / CW_SPEED_MIN) =
                   3 * (CW_DOT_CALIBRATION / (CW_DOT_CALIBRATION / (2 * (CW_DOT_CALIBRATION / CW_SPEED_MIN) / 2)))
                 decide),
             rfl,
             (by show 2 * (CW_DOT_CALIBRATION / CW_SPEED_MIN) =
                   2 * (CW_DOT_CALIBRATION / (CW_DOT_CALIBRATION / (2 * (CW_DOT_CALIBRATION / CW_SPEED_MIN) / 2)))
                 decide),
             (by show 2 * (CW_DOT_CALIBRATION / CW_SPEED_MIN) =
                   2 * (CW_DOT_CALIBRATION / (CW_DOT_CALIBRATION / (2 * (CW_DOT_CALIBRATION / CW_SPEED_MIN) / 2)))
                 decide),
             rfl⟩, rfl⟩
      · rw [if_neg hlow]
        exact ⟨rfl, rfl, fun hno => absurd hcl hno,
          (by show CW_SPEED_MIN ≤ CW_DOT_CALIBRATION / (2 * (CW_DOT_CALIBRATION / CW_SPEED_MAX) / 2) ∧
                CW_DOT_CALIBRATION / (2 * (CW_DOT_CALIBRATION / CW_SPEED_MAX) / 2) ≤ CW_SPEED_MAX
              decide),
          fun hcl2 =>
            ⟨(by show CW_DOT_CALIBRATION / (2 * (CW_DOT_CALIBRATION / CW_SPEED_MAX) / 2) = CW_SPEED_MAX
                 decide),
             (by show CW_DOT_CALIBRATION / CW_SPEED_MAX =
                   CW_DOT_CALIBRATION / (CW_DOT_CALIBRATION / (2 * (CW_DOT_CALIBRATION / CW_SPEED_MAX) / 2))
                 decide),
             (by show 3 * (CW_DOT_CALIBRATION / CW_SPEED_MAX) =
                   3 * (CW_DOT_CALIBRATION / (CW_DOT_CALIBRATION / (2 * (CW_DOT_CALIBRATION / CW_SPEED_MAX) / 2)))
                 decide),
             rfl,
             (by show 2 * (CW_DOT_CALIBRATION / CW_SPEED_MAX) =
                   2 * (CW_DOT_CALIBRATION / (CW_DOT_CALIBRATION / (2 * (CW_DOT_CALIBRATION / CW_SPEED_MAX) / 2)))
                 decide),
             (by show 2 * (CW_DOT_CALIBRATION / CW_SPEED_MAX) =
                   2 * (CW_DOT_CALIBRATION / (CW_DOT_CALIBRATION / (2 * (CW_DOT_CALIBRATION / CW_SPEED_MAX) / 2)))
                 decide),
             rfl⟩, rfl⟩
    · have hval : cw_rec_update_averages_internal r mark_len Mark.dash =
        { state := r.state
          speed := CW_DOT_CALIBRATION / ((d + o) / 2 / 2)
          tolerance := r.tolerance
          gap := r.gap
          is_adaptive_receive_mode := r.is_adaptive_receive_mode
          noise_spike_threshold := r.noise_spike_threshold
          adaptive_speed_threshold := (d + o) / 2
          mark_start := r.mark_start
          mark_end := r.mark_end
          representation := r.representation
          dot_len_ideal := CW_DOT_CALIBRATION / r.speed
          dot_len_min := 0
          dot_len_max := 2 * (CW_DOT_CALIBRATION / r.speed)
          dash_len_ideal := 3 * (CW_DOT_CALIBRATION / r.speed)
          dash_len_min := 2 * (CW_DOT_CALIBRATION / r.speed)
          dash_len_max := INT_MAX
          eom_len_ideal := CW_DOT_CALIBRATION / r.speed
          eom_len_min := 0
          eom_len_max := 2 * (CW_DOT_CALIBRATION / r.speed)
          eoc_len_ideal := 3 * (CW_DOT_CALIBRATION / r.speed)
          eoc_len_min := 2 * (CW_DOT_CALIBRATION / r.speed)
          eoc_len_max := 5 * (CW_DOT_CALIBRATION / r.speed)
          additional_delay := r.gap * (CW_DOT_CALIBRATION / r.speed)
          adjustment_delay := (7 * (r.gap * (CW_DOT_CALIBRATION / r.speed))) / 3
          parameters_in_sync := true
          statistics := r.statistics
          statistics_ind := r.statistics_ind
          dot_averaging := r.dot_averaging
          dash_averaging := cw_rec_update_average_internal r.dash_averaging mark_len } := by
        unfold cw_rec_update_averages_internal
        rw [if_neg (by simp [ha]), if_neg (show ¬(Mark.dash = Mark.dot) by decide)]
        dsimp only
        rw [← ho, ← hd, tdiv_threshold_eq o d hod]
        rw [sync_adaptive_eq _ (by exact ha) (by rfl)]
        dsimp only
        rw [if_neg hcl]
      rw [hval]
      refine ⟨rfl, rfl, fun _ => ⟨rfl, rfl⟩, ⟨?_, ?_⟩,
        fun hcl2 => absurd hcl2 hcl, rfl⟩
      · show CW_SPEED_MIN ≤ CW_DOT_CALIBRATION / ((d + o) / 2 / 2)
        omega
      · show CW_DOT_CALIBRATION / ((d + o) / 2 / 2) ≤ CW_SPEED_MAX
        omega

/-- Witness for C6 at a concrete adaptive receiver (12 WPM, dot average
50000 µs, dash average 150000 µs) accepting a 60000 µs dot: the new dot
average is 52500, the threshold becomes the midpoint 101250, and the
derived speed 23 WPM lies inside [4, 60]. -/
theorem claim_C6_witness :
    (cw_rec_update_averages_internal adaptAvgRec 60000 Mark.dot).dot_averaging =
      cw_rec_update_average_internal adaptAvgRec.dot_averaging 60000 ∧
    (cw_rec_update_averages_internal adaptAvgRec 60000 Mark.dot).dash_averaging =
      adaptAvgRec.dash_averaging ∧
    (cw_rec_update_averages_internal adaptAvgRec 60000 Mark.dot).adaptive_speed_threshold =
      101250 ∧
    (cw_rec_update_averages_internal adaptAvgRec 60000 Mark.dot).speed = 23 ∧
    (CW_SPEED_MIN ≤ (cw_rec_update_averages_internal adaptAvgRec 60000 Mark.dot).speed ∧
      (cw_rec_update_averages_internal adaptAvgRec 60000 Mark.dot).speed ≤ CW_SPEED_MAX) ∧
    (cw_rec_update_averages_internal adaptAvgRec 60000 Mark.dot).parameters_in_sync = true :=
  ⟨(claim_C6_adaptive_tracking adaptAvgRec 60000 Mark.dot 52500 150000
      (by decide) (by decide) (by decide) (by decide) (by decide)).1,
   (claim_C6_adaptive_tracking adaptAvgRec 60000 Mark.dot 52500 150000
      (by decide) (by decide) (by decide) (by decide) (by decide)).2.1,
   ((claim_C6_adaptive_tracking adaptAvgRec 60000 Mark.dot 52500 150000
      (by decide) (by decide) (by decide) (by decide) (by decide)).2.2.1
      (by decide)).1,
   ((claim_C6_adaptive_tracking adaptAvgRec 60000 Mark.dot 52500 150000
      (by decide) (by decide) (by decide) (by decide) (by decide)).2.2.1
      (by decide)).2,
   (claim_C6_adaptive_tracking adaptAvgRec 60000 Mark.dot 52500 150000
      (by decide) (by decide) (by decide) (by decide) (by decide)).2.2.2.1,
   (claim_C6_adaptive_tracking adaptAvgRec 60000 Mark.dot 52500 150000
      (by decide) (by decide) (by decide) (by decide) (by decide)).2.2.2.2.2⟩


/-! ### C7 -/

/-- `n` pre-classified dots fed to the initial receiver through
`cw_rec_add_mark_internal` (all at timestamp 0; `add_mark` only stores the
end-of-mark timestamp). -/
def addDots : Nat → cw_rec_t
| 0 => cw_receiver
| n + 1 => (cw_rec_add_mark_internal (addDots n) 0 Mark.dot).snd

/-- Below the overflow point, each of the dots fed by `addDots` is
accepted: the buffer is the corresponding list of dots and the receiver
sits in Space (Idle before the first mark). -/
theorem addDots_spec : ∀ n : Nat, n ≤ CW_REC_REPRESENTATION_CAPACITY - 2 →
    (addDots n).representation = List.replicate n Mark.dot ∧
    (addDots n).state =
      (if n = 0 then RecState.RS_IDLE else RecState.RS_SPACE) := by
  intro n
  induction n with
  | zero => intro _; exact ⟨rfl, rfl⟩
  | succ k ih =>
    intro hle
    obtain ⟨hrep, hst⟩ := ih (by omega)
    show (cw_rec_add_mark_internal (addDots k) 0 Mark.dot).snd.representation =
        List.replicate (k + 1) Mark.dot ∧
      (cw_rec_add_mark_internal (addDots k) 0 Mark.dot).snd.state =
        (if k + 1 = 0 then RecState.RS_IDLE else RecState.RS_SPACE)
    unfold cw_rec_add_mark_internal
    rw [if_neg (by rw [hst]; split_ifs <;> simp)]
    dsimp only
    rw [if_neg (by
      rw [hrep]
      simp only [List.length_append, List.length_replicate, List.length_cons,
        List.length_nil, CW_REC_REPRESENTATION_CAPACITY] at hle ⊢
      omega)]
    constructor
    · show (addDots k).representation ++ [Mark.dot] = List.replicate (k + 1) Mark.dot
      rw [hrep, List.replicate_succ']
    · show RecState.RS_SPACE = (if k + 1 = 0 then RecState.RS_IDLE else RecState.RS_SPACE)
      simp

set_option maxRecDepth 4000 in
/-- C7 counterexample: the overflow fires when `representation_ind` reaches
`CW_REC_REPRESENTATION_CAPACITY - 1 = 255`, i.e. on the 255th mark, not on
the 257th: after 254 accepted dots the receiver is still in Space with 254
buffered marks, and the 255th add fails with ENOMEM. -/
theorem claim_C7_counterexample :
    (addDots 254).representation.length = 254 ∧
    (addDots 254).state = RecState.RS_SPACE ∧
    (cw_rec_add_mark_internal (addDots 254) 0 Mark.dot).fst =
      Except.error Errno.ENOMEM ∧
    (cw_rec_add_mark_internal (addDots 254) 0 Mark.dot).snd.state =
      RecState.RS_EOC_GAP_ERR := by
  obtain ⟨hrep, hst⟩ := addDots_spec 254 (by decide)
  have hst2 : (addDots 254).state = RecState.RS_SPACE := by rw [hst]; simp
  have hlen : (addDots 254).representation.length = 254 := by
    rw [hrep]; simp
  refine ⟨hlen, hst2, ?_⟩
  unfold cw_rec_add_mark_internal
  rw [if_neg (by simp [hst2])]
  dsimp only
  rw [if_pos (by
    simp only [List.length_append, List.length_cons, List.length_nil, hlen,
      CW_REC_REPRESENTATION_CAPACITY])]
  exact ⟨rfl, rfl⟩

/-- C7 amended: the add that raises `representation_ind` to
`CW_REC_REPRESENTATION_CAPACITY - 1 = 255` (the 255th mark) fails with
errno ENOMEM and moves the receiver to EocGapErr; a subsequent poll whose
space length lies in the end-of-character range delivers the truncated
representation flagged with `is_error = true`; this holds for both
`cw_rec_mark_end_internal` and `cw_rec_add_mark_internal`. -/
theorem claim_C7_amended :
    (∀ (r : cw_rec_t) (t : Nat) (m : Mark),
      (r.state = RecState.RS_IDLE ∨ r.state = RecState.RS_SPACE) →
      r.representation_ind = CW_REC_REPRESENTATION_CAPACITY - 2 →
      (cw_rec_add_mark_internal r t m).fst = Except.error Errno.ENOMEM ∧
      (cw_rec_add_mark_internal r t m).snd.state = RecState.RS_EOC_GAP_ERR ∧
      (cw_rec_add_mark_internal r t m).snd.representation =
        r.representation ++ [m]) ∧
    (∀ (r : cw_rec_t) (t : Nat),
      r.state = RecState.RS_MARK →
      r.parameters_in_sync = true →
      r.is_adaptive_receive_mode = false →
      r.noise_spike_threshold < cw_timestamp_compare_internal r.mark_start t →
      r.dot_len_min ≤ cw_timestamp_compare_internal r.mark_start t →
      cw_timestamp_compare_internal r.mark_start t ≤ r.dot_len_max →
      r.representation_ind = CW_REC_REPRESENTATION_CAPACITY - 2 →
      (cw_rec_mark_end_internal r t).fst = Except.error Errno.ENOMEM ∧
      (cw_rec_mark_end_internal r t).snd.state = RecState.RS_EOC_GAP_ERR) ∧
    (∀ (r : cw_rec_t) (t : Nat),
      r.state = RecState.RS_EOC_GAP_ERR →
      r.parameters_in_sync = true →
      r.eoc_len_max < INT_MAX →
      r.eoc_len_min ≤ cw_timestamp_compare_internal r.mark_end t →
      cw_timestamp_compare_internal r.mark_end t ≤ r.eoc_len_max →
      (cw_rec_poll_representation_internal r t).fst =
        Except.ok ⟨r.representation, false, true⟩) := by
  refine ⟨fun r t m hstate hind => ?_, fun r t hstate hsync hadapt hnoise hd1 hd2 hind => ?_,
    fun r t hstate hsync hmax h1 h2 => ?_⟩
  · have hne : ¬(r.state ≠ RecState.RS_IDLE ∧ r.state ≠ RecState.RS_SPACE) := by
      rcases hstate with h | h <;> simp [h]
    have h2 : r.representation.length = 254 := by
      simpa [cw_rec_t.representation_ind, CW_REC_REPRESENTATION_CAPACITY] using hind
    unfold cw_rec_add_mark_internal
    rw [if_neg hne]
    dsimp only
    rw [if_pos (by
      simp only [List.length_append, List.length_cons, List.length_nil, h2,
        CW_REC_REPRESENTATION_CAPACITY])]
    exact ⟨rfl, rfl, rfl⟩
  · unfold cw_rec_mark_end_internal
    rw [if_neg (by simp [hstate])]
    dsimp only
    rw [if_neg (by
      intro hcon
      exact absurd hcon.2 (by simpa using Nat.not_le.mpr hnoise))]
    have hident : cw_rec_identify_mark_internal
        ({ r with mark_end := t } : cw_rec_t)
        (cw_timestamp_compare_internal r.mark_start t) =
        (Except.ok Mark.dot, { r with mark_end := t }) := by
      unfold cw_rec_identify_mark_internal
      rw [sync_of_in_sync _ (show ({ r with mark_end := t } : cw_rec_t).parameters_in_sync = true from hsync)]
      rw [if_pos (show ({ r with mark_end := t } : cw_rec_t).dot_len_min ≤
          cw_timestamp_compare_internal r.mark_start t ∧
          cw_timestamp_compare_internal r.mark_start t ≤
          ({ r with mark_end := t } : cw_rec_t).dot_len_max from ⟨hd1, hd2⟩)]
    rw [hident]
    dsimp only
    have hadapt2 : (if ({ r with mark_end := t } : cw_rec_t).is_adaptive_receive_mode = true
        then cw_rec_update_averages_internal ({ r with mark_end := t } : cw_rec_t)
          (cw_timestamp_compare_internal r.mark_start t) Mark.dot
        else ({ r with mark_end := t } : cw_rec_t)) =
        ({ r with mark_end := t } : cw_rec_t) :=
      if_neg (by simp [hadapt])
    rw [hadapt2]
    have hdot2 : (if (Mark.dot = Mark.dot)
        then cw_rec_update_stats_internal ({ r with mark_end := t } : cw_rec_t)
          stat_type_t.CW_REC_STAT_DOT (cw_timestamp_compare_internal r.mark_start t)
        else cw_rec_update_stats_internal ({ r with mark_end := t } : cw_rec_t)
          stat_type_t.CW_REC_STAT_DASH (cw_timestamp_compare_internal r.mark_start t)) =
        cw_rec_update_stats_internal ({ r with mark_end := t } : cw_rec_t)
          stat_type_t.CW_REC_STAT_DOT (cw_timestamp_compare_internal r.mark_start t) :=
      if_pos rfl
    rw [hdot2]
    have hcap : ((cw_rec_update_stats_internal ({ r with mark_end := t } : cw_rec_t)
        stat_type_t.CW_REC_STAT_DOT
        (cw_timestamp_compare_internal r.mark_start t)).representation ++
          [Mark.dot]).length = CW_REC_REPRESENTATION_CAPACITY - 1 := by
      rw [update_stats_representation]
      have h2 : r.representation.length = 254 := by
        simpa [cw_rec_t.representation_ind, CW_REC_REPRESENTATION_CAPACITY] using hind
      show (r.representation ++ [Mark.dot]).length = CW_REC_REPRESENTATION_CAPACITY - 1
      simp only [List.length_append, List.length_cons, List.length_nil, h2,
        CW_REC_REPRESENTATION_CAPACITY]
    rw [if_pos hcap]
    exact ⟨rfl, rfl⟩
  · have hne1 : ¬(r.state = RecState.RS_EOW_GAP ∨ r.state = RecState.RS_EOW_GAP_ERR) := by
      simp [hstate]
    have hne2 : ¬(r.state = RecState.RS_IDLE ∨ r.state = RecState.RS_MARK) := by
      simp [hstate]
    unfold cw_rec_poll_representation_internal
    rw [if_neg hne1, if_neg hne2, if_neg (by omega),
      sync_of_in_sync r hsync, if_pos ⟨h1, h2⟩]
    unfold cw_rec_poll_representation_eoc_internal
    rw [if_neg (by simp [hstate])]
    simp [hstate]

/-- A synchronized receiver in Space state holding 254 dots. -/
def spaceFullRec : cw_rec_t := { fixedRec with
  state := RecState.RS_SPACE
  representation := List.replicate 254 Mark.dot }

/-- A synchronized receiver in Mark state holding 254 dots, with the mark
begun at time 0. -/
def fullMarkRec : cw_rec_t := { fixedRec with
  state := RecState.RS_MARK
  mark_start := 0
  representation := List.replicate 254 Mark.dot }

/-- A synchronized receiver in the EocGapErr state holding 255 dots, with
the last mark ended at time 0. -/
def overflowedRec : cw_rec_t := { fixedRec with
  state := RecState.RS_EOC_GAP_ERR
  mark_end := 0
  representation := List.replicate 255 Mark.dot }

set_option maxRecDepth 4000 in
/-- Witness for C7: the 255th add on the receiver built by `addDots`, a
mark_end on a 254-dot receiver with a 100000 µs mark (a dot), and the poll
of an overflowed receiver 300000 µs after the last mark. -/
theorem claim_C7_witness :
    ((cw_rec_add_mark_internal spaceFullRec 0 Mark.dot).fst =
       Except.error Errno.ENOMEM ∧
     (cw_rec_add_mark_internal spaceFullRec 0 Mark.dot).snd.state =
       RecState.RS_EOC_GAP_ERR ∧
     (cw_rec_add_mark_internal spaceFullRec 0 Mark.dot).snd.representation =
       spaceFullRec.representation ++ [Mark.dot]) ∧
    ((cw_rec_mark_end_internal fullMarkRec 100000).fst =
       Except.error Errno.ENOMEM ∧
     (cw_rec_mark_end_internal fullMarkRec 100000).snd.state =
       RecState.RS_EOC_GAP_ERR) ∧
    (cw_rec_poll_representation_internal overflowedRec 300000).fst =
      Except.ok ⟨overflowedRec.representation, false, true⟩ :=
  ⟨claim_C7_amended.1 spaceFullRec 0 Mark.dot (Or.inr rfl)
     (by simp [spaceFullRec, cw_rec_t.representation_ind,
       CW_REC_REPRESENTATION_CAPACITY]),
   claim_C7_amended.2.1 fullMarkRec 100000 rfl (by decide) (by decide)
     (by decide) (by decide) (by decide)
     (by simp [fullMarkRec, cw_rec_t.representation_ind,
       CW_REC_REPRESENTATION_CAPACITY]),
   claim_C7_amended.2.2 overflowedRec 300000 rfl (by decide) (by decide)
     (by decide) (by decide)⟩

/-- Witness for C3 at the initial global receiver (Idle, empty buffer,
noise threshold 10000 µs): a mark from 1000 µs to 6000 µs measures 5000 µs
and is dropped as noise. -/
theorem claim_C3_witness :
    (cw_receiver.state = RecState.RS_IDLE ∨ cw_receiver.state = RecState.RS_SPACE) ∧
    0 < cw_receiver.noise_spike_threshold ∧
    cw_timestamp_compare_internal 1000 6000 ≤ cw_receiver.noise_spike_threshold ∧
    ((cw_rec_mark_begin_internal cw_receiver 1000).fst = Except.ok () ∧
     (cw_rec_mark_end_internal (cw_rec_mark_begin_internal cw_receiver 1000).snd 6000).fst =
       Except.error Errno.EAGAIN ∧
     (cw_rec_mark_end_internal (cw_rec_mark_begin_internal cw_receiver 1000).snd 6000).snd.state =
       (if cw_receiver.representation_ind = 0
        then RecState.RS_IDLE else RecState.RS_SPACE) ∧
     (cw_rec_mark_end_internal (cw_rec_mark_begin_internal cw_receiver 1000).snd 6000).snd.representation_ind =
       cw_receiver.representation_ind ∧
     (cw_rec_mark_end_internal (cw_rec_mark_begin_internal cw_receiver 1000).snd 6000).snd.representation =
       cw_receiver.representation ∧
     (cw_rec_mark_end_internal (cw_rec_mark_begin_internal cw_receiver 1000).snd 6000).snd.mark_end =
       cw_receiver.mark_end) :=
  ⟨Or.inl rfl, by decide, by decide,
   claim_C3_noise_filter cw_receiver 1000 6000 (Or.inl rfl) (by decide) (by decide)⟩

end Unixcw
